import Mathlib

/-!
Shallow embedding of the CNPJ "Simples Nacional" batch-query scripts
(`consulta_simples.py`, `codigocomentado.py`, `Usando Outras Tentativas/consulta.py`,
`Usando BrasilAPI/consulta_simples.py`, `Interface/app.py`) and proofs about their
period-extraction, per-year coverage classification, batch-loop row production,
rate-limit sleeping, and output-frame shape.

Modelling conventions:
* Python `datetime.date` values become the `Date` structure; Python's date
  comparison is lexicographic on (year, month, day), embedded as `Date.ble` /
  `Date.blt`.
* JSON values (the parsed API responses) become the inductive `Json`;
  `dict.get` becomes `Json.get` (the scripts only ever call `.get` on values
  produced as JSON objects, so HTTP oracles below return association lists).
* The date-parsing kernel (`strptime` formats plus the `dateutil` fallback,
  applied to truthy values) is immaterial to every claim, so the functions that
  use it are parameterised by an arbitrary `parse : Json → Option Date`; the
  `if not s: return None` guard of `parse_date_any` / `parsear_data` is kept
  explicit in `parse_date_any`.
* Side effects (HTTP, prints, tqdm, Excel writing) are modelled by oracles and
  by the pure list of produced rows; `time.sleep` calls become events of a
  trace (`Ev`).
-/

/-- Python `datetime.date`: a (year, month, day) triple. Python validates
ranges at construction; the scripts only build in-range dates. -/
structure Date where
  year : Nat
  month : Nat
  day : Nat
deriving DecidableEq, Repr

/-- Python date `<=`: lexicographic on (year, month, day). -/
def Date.ble (a b : Date) : Bool :=
  decide (a.year < b.year) ||
    (decide (a.year = b.year) &&
      (decide (a.month < b.month) ||
        (decide (a.month = b.month) && decide (a.day ≤ b.day))))

/-- Python date `<`: strict lexicographic order. -/
def Date.blt (a b : Date) : Bool :=
  decide (a.year < b.year) ||
    (decide (a.year = b.year) &&
      (decide (a.month < b.month) ||
        (decide (a.month = b.month) && decide (a.day < b.day))))

/-- Left-pad a string with zeros (used for ISO rendering of date fields). -/
def padZeros (w : Nat) (s : String) : String :=
  String.mk (List.replicate (w - s.length) '0') ++ s

/-- `date.isoformat()` / `strftime("%Y-%m-%d")`: zero-padded `YYYY-MM-DD`. -/
def Date.iso (d : Date) : String :=
  padZeros 4 (toString d.year) ++ "-" ++ padZeros 2 (toString d.month) ++ "-" ++
    padZeros 2 (toString d.day)

/-- Gregorian leap-year rule (Python `calendar.isleap`). -/
def Date.isLeap (y : Nat) : Bool :=
  y % 4 == 0 && (y % 100 != 0 || y % 400 == 0)

/-- Number of days of month `m` of year `y` (`calendar.monthrange(y, m)[1]`). -/
def monthDays (y m : Nat) : Nat :=
  if m = 2 then (if Date.isLeap y then 29 else 28)
  else if m = 4 ∨ m = 6 ∨ m = 9 ∨ m = 11 then 30
  else 31

/-- Days in year `y` strictly before month `m`. -/
def daysBeforeMonth (y m : Nat) : Nat :=
  (List.range (m - 1)).foldl (fun acc i => acc + monthDays y (i + 1)) 0

/-- Python `date.toordinal()` (proleptic Gregorian day number); date
subtraction in the scripts is the difference of ordinals. -/
def Date.toOrdinal (d : Date) : Int :=
  365 * ((d.year : Int) - 1) + ((d.year : Int) - 1) / 4 -
    ((d.year : Int) - 1) / 100 + ((d.year : Int) - 1) / 400 +
    (daysBeforeMonth d.year d.month : Int) + (d.day : Int)

/-- `(a - b).days` for Python dates. -/
def Date.subDays (a b : Date) : Int :=
  a.toOrdinal - b.toOrdinal

/-- `date(9999, 12, 31)`: the "ongoing" sentinel of `covers_year_strict`. -/
def MAX_DATE : Date := ⟨9999, 12, 31⟩

/-- Parsed JSON values, as returned by `response.json()`. -/
inductive Json where
  | null
  | bool (b : Bool)
  | num (n : Int)
  | str (s : String)
  | arr (elems : List Json)
  | obj (fields : List (String × Json))

/-- Python `dict.get(k)`: `none` when the key is absent (or the value is not a
dict, a case in which the scripts would raise and which their inputs never
produce). JSON objects have unique keys, so first-match lookup is exact. -/
def Json.get : Json → String → Option Json
  | .obj fs, k => fs.lookup k
  | _, _ => none

/-- Python truthiness of a JSON value (`bool(x)`). -/
def Json.truthy : Json → Bool
  | .null => false
  | .bool b => b
  | .num n => n != 0
  | .str s => s != ""
  | .arr xs => !xs.isEmpty
  | .obj fs => !fs.isEmpty

/-- Is the value a JSON object (`isinstance(x, dict)`)? -/
def Json.isObj : Json → Bool
  | .obj _ => true
  | _ => false

mutual
/-- Python `repr()` of a JSON-shaped value (used by `str()` on containers). -/
def Json.pyRepr : Json → String
  | .null => "None"
  | .bool true => "True"
  | .bool false => "False"
  | .num n => toString n
  | .str s => "'" ++ s ++ "'"
  | .arr xs => "[" ++ Json.pyReprList xs ++ "]"
  | .obj fs => "\x7b" ++ Json.pyReprFields fs ++ "\x7d"

def Json.pyReprList : List Json → String
  | [] => ""
  | [x] => Json.pyRepr x
  | x :: xs => Json.pyRepr x ++ ", " ++ Json.pyReprList xs

def Json.pyReprFields : List (String × Json) → String
  | [] => ""
  | [(k, v)] => "'" ++ k ++ "': " ++ Json.pyRepr v
  | (k, v) :: fs => "'" ++ k ++ "': " ++ Json.pyRepr v ++ ", " ++ Json.pyReprFields fs
end

/-- Python `str()` of a JSON-shaped value (as in `f"API_CODE_{code}"`). -/
def Json.pyStr : Json → String
  | .str s => s
  | j => j.pyRepr

/-- `str(x)` of an optional value, where absence is Python `None`. -/
def pyStrOpt : Option Json → String
  | none => "None"
  | some j => j.pyStr

/-- Python `str.zfill(width)`: left-pad with `'0'` to `width`, keeping a
leading sign in front of the padding; longer strings are returned unchanged. -/
def pyZfill (width : Nat) (s : String) : String :=
  if width ≤ s.length then s
  else
    match s.data with
    | c :: rest =>
      if c = '+' ∨ c = '-' then
        String.mk (c :: (List.replicate (width - s.length) '0' ++ rest))
      else
        String.mk (List.replicate (width - s.length) '0' ++ s.data)
    | [] => String.mk (List.replicate width '0')

/-- Python `str.strip()` (no argument): drop whitespace from both ends. -/
def pyStrip (s : String) : String :=
  String.mk (((s.data.dropWhile Char.isWhitespace).reverse.dropWhile
    Char.isWhitespace).reverse)

/-- `clean_cnpj` of `consulta_simples.py` line 31 (identical in
`Usando Outras Tentativas/consulta.py` line 26, `Interface/app.py` line 36, and
`limpar_cnpj` of `codigocomentado.py`): drop every non-digit character
(`re.sub(r'\D', '', str(s))`) and zero-fill to 14. -/
def clean_cnpj (s : String) : String :=
  pyZfill 14 (String.mk (s.data.filter Char.isDigit))

/-- A period as built by `extract_periods_from_response` in
`consulta_simples.py`: a `(start, end)` tuple of optional dates. -/
abbrev PeriodT := Option Date × Option Date

/-- The reason string of the `True` branch of `covers_year_strict`
(line 168): `f"coberto_por_periodo {si} - {ei_eff or 'ongoing'}"`. -/
def coberto_reason (si : Date) (ei : Option Date) : String :=
  "coberto_por_periodo " ++ si.iso ++ " - " ++
    (match ei with
     | some e => e.iso
     | none => "ongoing")

/-- The scan loop of `covers_year_strict` (lines 163-169): skip periods with
no start; a missing end is the open sentinel `date(9999, 12, 31)`; return on
the first period overlapping `[ys, ye]`. -/
def covers_year_strict_go (ys ye : Date) : List PeriodT → Bool × String
  | [] => (false, "sem_periodo_explicito")
  | (none, _) :: rest => covers_year_strict_go ys ye rest
  | (some si, ei?) :: rest =>
    if si.ble ye && ys.ble (ei?.getD MAX_DATE) then (true, coberto_reason si ei?)
    else covers_year_strict_go ys ye rest

/-- The per-period overlap test of `covers_year_strict` (line 167). -/
def strictHit (ys ye : Date) (p : PeriodT) : Bool :=
  match p.1 with
  | some si => si.ble ye && ys.ble (p.2.getD MAX_DATE)
  | none => false

/-- `covers_year_strict` of `consulta_simples.py` lines 159-169. -/
def covers_year_strict (periods : List PeriodT) (year : Nat) : Bool × String :=
  covers_year_strict_go (Date.mk year 1 1) (Date.mk year 12 31) periods

/-- The overlap condition of the claim, stated directly from the spec's words:
some period with a non-`None` start has start ≤ Dec 31 of the year and
effective end (missing end ↦ 9999-12-31) ≥ Jan 1 of the year. -/
def SpecCoversStrict (P : List PeriodT) (year : Nat) : Prop :=
  ∃ p ∈ P, ∃ si : Date, p.1 = some si ∧
    si.ble (Date.mk year 12 31) = true ∧
    (Date.mk year 1 1).ble (p.2.getD MAX_DATE) = true

theorem covers_year_strict_go_fst (ys ye : Date) (P : List PeriodT) :
    (covers_year_strict_go ys ye P).1 = P.any (strictHit ys ye) := by
  induction P with
  | nil => rfl
  | cons hd tl ih =>
    obtain ⟨si?, ei?⟩ := hd
    cases si? with
    | none => simpa [covers_year_strict_go, strictHit] using ih
    | some si =>
      by_cases hcond : (si.ble ye && ys.ble (ei?.getD MAX_DATE)) = true
      · simp [covers_year_strict_go, strictHit, hcond]
      · simp only [Bool.not_eq_true] at hcond
        simp [covers_year_strict_go, strictHit, hcond, ih]

theorem strictHit_iff (ys ye : Date) (p : PeriodT) :
    strictHit ys ye p = true ↔
      ∃ si : Date, p.1 = some si ∧ si.ble ye = true ∧
        ys.ble (p.2.getD MAX_DATE) = true := by
  obtain ⟨si?, ei?⟩ := p
  cases si? with
  | none => simp [strictHit]
  | some si => simp [strictHit]

theorem covers_year_strict_go_true_reason (ys ye : Date) (P : List PeriodT)
    (h : (covers_year_strict_go ys ye P).1 = true) :
    ∃ p ∈ P, ∃ si : Date, p.1 = some si ∧
      si.ble ye = true ∧ ys.ble (p.2.getD MAX_DATE) = true ∧
      (covers_year_strict_go ys ye P).2 = coberto_reason si p.2 := by
  induction P with
  | nil => simp [covers_year_strict_go] at h
  | cons hd tl ih =>
    obtain ⟨si?, ei?⟩ := hd
    cases si? with
    | none =>
      simp only [covers_year_strict_go] at h ⊢
      obtain ⟨p, hp, si, hrest⟩ := ih h
      exact ⟨p, List.mem_cons_of_mem _ hp, si, hrest⟩
    | some si =>
      by_cases hcond : (si.ble ye && ys.ble (ei?.getD MAX_DATE)) = true
      · simp only [covers_year_strict_go, hcond, if_pos]
        obtain ⟨h1, h2⟩ := by simpa using hcond
        exact ⟨(some si, ei?), List.mem_cons_self _ _, si, rfl, h1, h2, rfl⟩
      · simp only [covers_year_strict_go, hcond, if_neg] at h ⊢
        obtain ⟨p, hp, si', hrest⟩ := ih h
        exact ⟨p, List.mem_cons_of_mem _ hp, si', hrest⟩

theorem covers_year_strict_go_false_reason (ys ye : Date) (P : List PeriodT)
    (h : (covers_year_strict_go ys ye P).1 = false) :
    (covers_year_strict_go ys ye P).2 = "sem_periodo_explicito" := by
  induction P with
  | nil => simp [covers_year_strict_go]
  | cons hd tl ih =>
    obtain ⟨si?, ei?⟩ := hd
    cases si? with
    | none =>
      simp only [covers_year_strict_go] at h ⊢
      exact ih h
    | some si =>
      by_cases hcond : (si.ble ye && ys.ble (ei?.getD MAX_DATE)) = true
      · simp [covers_year_strict_go, hcond] at h
      · simp only [covers_year_strict_go, hcond, if_neg] at h ⊢
        exact ih h

/-- C1: `covers_year_strict` returns `True` iff some period with non-`None`
start satisfies start ≤ Dec 31 and effective end (missing end ↦ 9999-12-31)
≥ Jan 1 of the year; when `True` the reason names the covering period, and
when `False` the reason is `"sem_periodo_explicito"`. -/
theorem covers_year_strict_correct (P : List PeriodT) (year : Nat) :
    ((covers_year_strict P year).1 = true ↔ SpecCoversStrict P year)
    ∧ ((covers_year_strict P year).1 = true →
        ∃ p ∈ P, ∃ si : Date, p.1 = some si ∧
          si.ble (Date.mk year 12 31) = true ∧
          (Date.mk year 1 1).ble (p.2.getD MAX_DATE) = true ∧
          (covers_year_strict P year).2 = coberto_reason si p.2)
    ∧ ((covers_year_strict P year).1 = false →
        (covers_year_strict P year).2 = "sem_periodo_explicito") := by
  refine ⟨?_, ?_, ?_⟩
  · rw [show (covers_year_strict P year).1 = _ from covers_year_strict_go_fst _ _ P]
    unfold SpecCoversStrict
    simp only [List.any_eq_true, strictHit_iff]
  · exact covers_year_strict_go_true_reason _ _ P
  · exact covers_year_strict_go_false_reason _ _ P

/-- Witness for C1 at a concrete input: the single period
(2020-05-01, ongoing) makes `covers_year_strict` report 2020 as covered. -/
theorem covers_year_strict_correct_witness :
    SpecCoversStrict [(some ⟨2020, 5, 1⟩, none)] 2020 ∧
      (covers_year_strict [(some ⟨2020, 5, 1⟩, none)] 2020).2 =
        coberto_reason ⟨2020, 5, 1⟩ none := by
  refine ⟨(covers_year_strict_correct [(some ⟨2020, 5, 1⟩, none)] 2020).1.mp (by decide), ?_⟩
  obtain ⟨p, hp, si, h1, _, _, h4⟩ :=
    (covers_year_strict_correct [(some ⟨2020, 5, 1⟩, none)] 2020).2.1 (by decide)
  simp only [List.mem_singleton] at hp
  subst hp
  simp only [Option.some.injEq] at h1
  subst h1
  exact h4

theorem pyZfill_digits (ds : List Char) (hd : ∀ c ∈ ds, Char.isDigit c = true) :
    pyZfill 14 (String.mk ds) =
      String.mk (List.replicate (14 - ds.length) '0' ++ ds) := by
  have hlen : (String.mk ds).length = ds.length := rfl
  unfold pyZfill
  by_cases h14 : 14 ≤ (String.mk ds).length
  · rw [if_pos h14]
    rw [hlen] at h14
    have h0 : 14 - ds.length = 0 := by omega
    rw [h0]
    simp
  · rw [if_neg h14]
    match ds, hd with
    | [], _ => simp
    | c :: rest, hd =>
      have hc : Char.isDigit c = true := hd c (List.mem_cons_self _ _)
      have hplus : ¬(c = '+' ∨ c = '-') := by
        rintro (rfl | rfl)
        · exact absurd hc (by decide)
        · exact absurd hc (by decide)
      simp only [if_neg hplus]
      rfl

/-- C10: `clean_cnpj` keeps exactly the digit characters of the input in
order, left-pads with zeros to length 14, and never truncates: the result has
length `max 14 (number of digits)`. -/
theorem clean_cnpj_correct (s : String) :
    clean_cnpj s =
      String.mk (List.replicate (14 - (s.data.filter Char.isDigit).length) '0' ++
        s.data.filter Char.isDigit)
    ∧ (clean_cnpj s).length = max 14 (s.data.filter Char.isDigit).length := by
  have h1 : clean_cnpj s =
      String.mk (List.replicate (14 - (s.data.filter Char.isDigit).length) '0' ++
        s.data.filter Char.isDigit) :=
    pyZfill_digits _ (fun c hc => List.of_mem_filter hc)
  refine ⟨h1, ?_⟩
  rw [h1]
  have hlen : ∀ l : List Char, (String.mk l).length = l.length := fun _ => rfl
  rw [hlen, List.length_append, List.length_replicate]
  omega

/-- First truthy `item.get(k)` along a key list: models the `or`-chains such
as `item.get("inicio_data") or item.get("inicio") or ...`
(`consulta_simples.py` lines 124-125 and 150-151). Python returns the last
operand even when it is falsy; every consumer feeds the result to
`parse_date_any`, which maps falsy values to `None`, so collapsing an
all-falsy chain to `none` is observationally equal. -/
def orGets (item : Json) (keys : List String) : Option Json :=
  keys.findSome? fun k =>
    match item.get k with
    | some v => if v.truthy then some v else none
    | none => none

/-- `_pegar_valor` of `codigocomentado.py` lines 91-96 (also `_get_value` of
`Interface/app.py`): the first key whose value is present and not in
`(None, "")`; falsy values other than those two (e.g. `0`, `False`) are
returned. -/
def pegar_valor (item : Json) (keys : List String) : Option Json :=
  keys.findSome? fun k =>
    match item.get k with
    | some .null => none
    | some (.str "") => none
    | some v => some v
    | none => none

/-- The shell of `parse_date_any` / `parsear_data`: falsy input (including
`None`) parses to `None` (`if not s: return None`); the format-trying kernel
(`strptime` formats, `dateutil` fallback) is the `parse` parameter. -/
def parse_date_any (parse : Json → Option Date) : Option Json → Option Date
  | none => none
  | some j => if j.truthy then parse j else none

/-- Start-date key chain of `extract_periods_from_response`
(`consulta_simples.py` line 124). -/
def inicioKeysCS : List String :=
  ["inicio_data", "inicio", "data_inicio", "normalizado_inicio_data"]

/-- End-date key chain (`consulta_simples.py` lines 125 and 151). -/
def fimKeysCS : List String :=
  ["fim_data", "fim", "data_fim", "normalizado_fim_data"]

/-- Candidate period-list keys of `consulta_simples.py` lines 108-114. -/
def candidate_keys_cs : List String :=
  ["simples_nacional_periodos_anteriores", "simples_nacional_periodos",
   "periodos_simples", "simples_periodos", "simples_nacional"]

/-- One item of a period list (`consulta_simples.py` lines 120-129 and
147-155): non-dict items are skipped, and a period is appended only when the
start date parses. -/
def itemPeriodCS (parse : Json → Option Date) (sKeys : List String)
    (item : Json) : Option PeriodT :=
  match item with
  | .obj _ =>
    match parse_date_any parse (orGets item sKeys) with
    | some si => some (some si, parse_date_any parse (orGets item fimKeysCS))
    | none => none
  | _ => none

/-- The `data` block selection of `consulta_simples.py` lines 100-105: first
element of a nonempty list, or the dict itself; otherwise `data` stays
`None`. -/
def dataBlockCS (resp : Json) : Option Json :=
  match resp.get "data" with
  | some (.arr (x :: _)) => some x
  | some (.obj fs) => some (.obj fs)
  | _ => none

/-- `consulta_simples.py` lines 118-119: the first candidate key present in
`data` whose value is a list (the loop then returns, even when that list
yields no periods). -/
def firstListKey (data : Json) (keys : List String) : Option (List Json) :=
  keys.findSome? fun k =>
    match data.get k with
    | some (.arr xs) => some xs
    | _ => none

mutual
/-- `find_lists` of `consulta_simples.py` lines 133-143: collect every list
whose first element is a dict, recursing into all list elements and dict
values. -/
def find_lists : Json → List (List Json)
  | .arr xs =>
    (match xs with
     | .obj _ :: _ => [xs]
     | _ => []) ++ find_lists_elems xs
  | .obj fs => find_lists_fields fs
  | _ => []

def find_lists_elems : List Json → List (List Json)
  | [] => []
  | x :: xs => find_lists x ++ find_lists_elems xs

def find_lists_fields : List (String × Json) → List (List Json)
  | [] => []
  | (_, v) :: fs => find_lists v ++ find_lists_fields fs
end

/-- `extract_periods_from_response` of `consulta_simples.py` lines 93-156. -/
def extract_periods_from_response (parse : Json → Option Date)
    (resp : Json) : List PeriodT :=
  if !resp.truthy || !resp.isObj then []
  else
    match
      (match dataBlockCS resp with
       | some d =>
         if d.truthy && d.isObj then firstListKey d candidate_keys_cs else none
       | none => none) with
    | some items => items.filterMap (itemPeriodCS parse inicioKeysCS)
    | none =>
      (find_lists resp).flatMap fun lst =>
        lst.filterMap (itemPeriodCS parse (inicioKeysCS ++ ["data"]))

/-- A period as built by `extrair_periodos_da_resposta` in
`codigocomentado.py` (and by the other dict-based scripts): the Python dict
`{'start': ..., 'end': ..., 'detalhe': ...}`; the `end` key is the field
`stop` here (`end` is reserved in Lean). -/
structure PeriodR where
  start : Option Date
  stop : Option Date
  detalhe : String
deriving DecidableEq, Repr

/-- The `detalhe` entry of an item (`codigocomentado.py` lines 138, 167):
`_pegar_valor(item, [...]) or ""`, rendered as the string the scripts later
concatenate (non-string truthy values would make Python's later `.strip()`
raise; the scripts' inputs carry strings here). -/
def detalheOf (item : Json) : String :=
  match pegar_valor item ["detalhamento", "detalhe", "motivo"] with
  | some j => if j.truthy then j.pyStr else ""
  | none => ""

/-- Start-date key chain of `codigocomentado.py` line 136. -/
def inicioKeysCC : List String := ["inicio_data", "data_inicio", "inicio", "data"]

/-- End-date key chain of `codigocomentado.py` line 137 (the source lists
`"data_fim"` twice). -/
def fimKeysCC : List String := ["fim_data", "data_fim", "fim", "data_fim"]

/-- Candidate period-list keys of `codigocomentado.py` lines 118-127. -/
def candidate_keys_cc : List String :=
  ["simples_nacional_periodos_anteriores", "simples_nacional_periodos",
   "periodos_simples", "simples_periodos", "simples_nacional", "periodos",
   "permanencia", "periodo"]

/-- One item (`codigocomentado.py` lines 133-142 and 162-171): a period dict
is appended only when the start date parses. -/
def itemPeriodCC (parse : Json → Option Date) (item : Json) : Option PeriodR :=
  match item with
  | .obj _ =>
    match parse_date_any parse (pegar_valor item inicioKeysCC) with
    | some si =>
      some ⟨some si, parse_date_any parse (pegar_valor item fimKeysCC), detalheOf item⟩
    | none => none
  | _ => none

/-- `codigocomentado.py` lines 109-115: the `data` block, falling back to the
whole response for the general sweep. -/
def dataRootCC (resp : Json) : Json :=
  match resp.get "data" with
  | some (.arr (x :: _)) => x
  | some (.obj fs) => Json.obj fs
  | _ => resp

/-- The key loop of `codigocomentado.py` lines 130-144: keys are tried in
order and the function returns as soon as a list-valued key contributes at
least one period (the accumulator is empty until that first contribution, so
the returned list is exactly that key's contribution). -/
def ccFromKeys (parse : Json → Option Date) (dataRoot : Json) :
    Option (List PeriodR) :=
  candidate_keys_cc.findSome? fun k =>
    match dataRoot.get k with
    | some (.arr xs) =>
      match xs.filterMap (itemPeriodCC parse) with
      | [] => none
      | ps => some ps
    | _ => none

mutual
/-- `encontrar_listas` of `codigocomentado.py` lines 147-158: like
`find_lists`, but a collected list is not recursed into. -/
def encontrar_listas : Json → List (List Json)
  | .obj fs => encontrar_listas_fields fs
  | .arr xs =>
    match xs with
    | .obj _ :: _ => [xs]
    | _ => encontrar_listas_elems xs
  | _ => []

def encontrar_listas_elems : List Json → List (List Json)
  | [] => []
  | x :: xs => encontrar_listas x ++ encontrar_listas_elems xs

def encontrar_listas_fields : List (String × Json) → List (List Json)
  | [] => []
  | (_, v) :: fs => encontrar_listas v ++ encontrar_listas_fields fs
end

/-- `extrair_periodos_da_resposta` of `codigocomentado.py` lines 99-172. -/
def extrair_periodos_da_resposta (parse : Json → Option Date)
    (resp : Json) : List PeriodR :=
  if !resp.truthy || !resp.isObj then []
  else
    match ccFromKeys parse (dataRootCC resp) with
    | some ps => ps
    | none =>
      (encontrar_listas resp).flatMap fun lst => lst.filterMap (itemPeriodCC parse)

theorem itemPeriodCS_start {parse : Json → Option Date} {sKeys : List String}
    {item : Json} {p : PeriodT} (h : itemPeriodCS parse sKeys item = some p) :
    p.1.isSome = true := by
  unfold itemPeriodCS at h
  cases item <;> simp at h
  case obj fs =>
    cases hp : parse_date_any parse (orGets (Json.obj fs) sKeys) with
    | none => rw [hp] at h; simp at h
    | some si =>
      rw [hp] at h
      simp only [Option.some.injEq] at h
      subst h
      rfl

theorem itemPeriodCC_start {parse : Json → Option Date}
    {item : Json} {p : PeriodR} (h : itemPeriodCC parse item = some p) :
    p.start.isSome = true := by
  unfold itemPeriodCC at h
  cases item <;> simp at h
  case obj fs =>
    cases hp : parse_date_any parse (pegar_valor (Json.obj fs) inicioKeysCC) with
    | none => rw [hp] at h; simp at h
    | some si =>
      rw [hp] at h
      simp only [Option.some.injEq] at h
      subst h
      rfl

theorem extract_cs_start {parse : Json → Option Date} {resp : Json}
    {p : PeriodT} (hp : p ∈ extract_periods_from_response parse resp) :
    p.1.isSome = true := by
  unfold extract_periods_from_response at hp
  by_cases hguard : (!resp.truthy || !resp.isObj) = true
  · rw [if_pos hguard] at hp
    simp at hp
  · rw [if_neg hguard] at hp
    rcases hsel :
        (match dataBlockCS resp with
         | some d =>
           if d.truthy && d.isObj then firstListKey d candidate_keys_cs else none
         | none => none) with _ | items
    · rw [hsel] at hp
      simp only [List.mem_flatMap] at hp
      obtain ⟨lst, _, hmem⟩ := hp
      obtain ⟨item, _, hitem⟩ := List.mem_filterMap.mp hmem
      exact itemPeriodCS_start hitem
    · rw [hsel] at hp
      obtain ⟨item, _, hitem⟩ := List.mem_filterMap.mp hp
      exact itemPeriodCS_start hitem

theorem ccFromKeys_start {parse : Json → Option Date} {dataRoot : Json}
    {ps : List PeriodR} (h : ccFromKeys parse dataRoot = some ps)
    {p : PeriodR} (hp : p ∈ ps) : p.start.isSome = true := by
  obtain ⟨k, _, hk⟩ := List.exists_of_findSome?_eq_some h
  rcases hget : dataRoot.get k with _ | v
  · rw [hget] at hk; simp at hk
  · rw [hget] at hk
    cases v <;> simp at hk
    case arr xs =>
      rcases hfm : xs.filterMap (itemPeriodCC parse) with _ | ⟨q, qs⟩
      · rw [hfm] at hk; simp at hk
      · rw [hfm] at hk
        simp only [Option.some.injEq] at hk
        subst hk
        rw [← hfm] at hp
        obtain ⟨item, _, hitem⟩ := List.mem_filterMap.mp hp
        exact itemPeriodCC_start hitem

theorem extract_cc_start {parse : Json → Option Date} {resp : Json}
    {p : PeriodR} (hp : p ∈ extrair_periodos_da_resposta parse resp) :
    p.start.isSome = true := by
  unfold extrair_periodos_da_resposta at hp
  by_cases hguard : (!resp.truthy || !resp.isObj) = true
  · rw [if_pos hguard] at hp
    simp at hp
  · rw [if_neg hguard] at hp
    rcases hsel : ccFromKeys parse (dataRootCC resp) with _ | ps
    · rw [hsel] at hp
      simp only [List.mem_flatMap] at hp
      obtain ⟨lst, _, hmem⟩ := hp
      obtain ⟨item, _, hitem⟩ := List.mem_filterMap.mp hmem
      exact itemPeriodCC_start hitem
    · rw [hsel] at hp
      exact ccFromKeys_start hsel hp

/-- C8: every period the extraction functions return has a parsed
(non-`None`) start date, while the end may be `None`; for falsy or non-dict
input the returned list is empty — for every JSON input and every parsing
kernel. -/
theorem extraction_start_invariant (parse : Json → Option Date) (resp : Json) :
    (∀ p ∈ extract_periods_from_response parse resp, p.1.isSome = true)
    ∧ (∀ p ∈ extrair_periodos_da_resposta parse resp, p.start.isSome = true)
    ∧ (resp.truthy = false ∨ resp.isObj = false →
        extract_periods_from_response parse resp = [] ∧
        extrair_periodos_da_resposta parse resp = []) := by
  refine ⟨fun p hp => extract_cs_start hp, fun p hp => extract_cc_start hp, fun hg => ?_⟩
  have hguard : (!resp.truthy || !resp.isObj) = true := by
    rcases hg with h | h <;> simp [h]
  constructor
  · unfold extract_periods_from_response
    rw [if_pos hguard]
  · unfold extrair_periodos_da_resposta
    rw [if_pos hguard]

/-- A concrete parsing kernel used only by witnesses: parses the literal
JSON strings appearing in the witness inputs. -/
def parseW : Json → Option Date
  | .str "01/06/2020" => some ⟨2020, 6, 1⟩
  | .str "01/01/2020" => some ⟨2020, 1, 1⟩
  | _ => none

/-- A concrete API response used only by witnesses. -/
def respW8 : Json :=
  Json.obj [("data", Json.obj [("simples_nacional_periodos",
    Json.arr [Json.obj [("inicio_data", Json.str "01/06/2020")]])])]

/-- Witness for C8 at a concrete input: a response with one período item
yields a period whose start is parsed, and `null` input yields nothing. -/
theorem extraction_start_invariant_witness :
    ((some (⟨2020, 6, 1⟩ : Date), (none : Option Date)) ∈
        extract_periods_from_response parseW respW8
      ∧ ((some (⟨2020, 6, 1⟩ : Date), (none : Option Date)) : PeriodT).1.isSome = true)
    ∧ extract_periods_from_response parseW Json.null = []
    ∧ extrair_periodos_da_resposta parseW Json.null = [] := by
  refine ⟨⟨?_, ?_⟩, ?_, ?_⟩
  · decide
  · exact (extraction_start_invariant parseW respW8).1 _ (by decide)
  · exact ((extraction_start_invariant parseW Json.null).2.2 (Or.inl rfl)).1
  · exact ((extraction_start_invariant parseW Json.null).2.2 (Or.inl rfl)).2

theorem Date.ble_trans {a b c : Date} (h1 : a.ble b = true)
    (h2 : b.ble c = true) : a.ble c = true := by
  simp only [Date.ble, Bool.or_eq_true, Bool.and_eq_true, decide_eq_true_eq] at *
  omega

theorem Date.jan1_ble_dec31 (y : Nat) :
    (⟨y, 1, 1⟩ : Date).ble ⟨y, 12, 31⟩ = true := by
  simp [Date.ble]

theorem Date.jan1_ble_max {y : Nat} (hy : y ≤ 9999) :
    (⟨y, 1, 1⟩ : Date).ble MAX_DATE = true := by
  simp only [Date.ble, MAX_DATE, Bool.or_eq_true, Bool.and_eq_true, decide_eq_true_eq]
  omega

theorem Date.jan1_ble_same_year {y : Nat} {cd : Date} (hyr : cd.year = y)
    (hm : 1 ≤ cd.month) (hd : 1 ≤ cd.day) :
    (⟨y, 1, 1⟩ : Date).ble cd = true := by
  simp only [Date.ble, Bool.or_eq_true, Bool.and_eq_true, decide_eq_true_eq]
  omega

/-- The scan loop of `cobre_ano_com_regras` (`codigocomentado.py` lines
203-225), with the `motivos` accumulator explicit. The current-year rule
needs coverage of 01/01 through the consultation date; past (or other) years
need 01/01 through 31/12; a period with no end runs to the consultation
date. -/
def cobre_loop (year : Nat) (cd : Date) (motivos : List String) :
    List PeriodR → Bool × String
  | [] =>
    (false,
      if motivos.isEmpty then "nenhum_periodo_encontrado"
      else "nao_cobre_periodo_exigido; " ++ String.intercalate "; " motivos)
  | ⟨none, _, _⟩ :: rest => cobre_loop year cd motivos rest
  | ⟨some si, stop?, det⟩ :: rest =>
    if year = cd.year then
      if si.ble ⟨year, 1, 1⟩ && cd.ble (stop?.getD cd) then
        (true, String.intercalate "; " (motivos ++
          ["cobre_" ++ toString year ++ "_de_01_01_ate_" ++ cd.iso ++ " (" ++
            toString (Date.subDays cd ⟨year, 1, 1⟩ + 1) ++ " dias) [" ++ (pyStrip det) ++ "]"]))
      else
        cobre_loop year cd (motivos ++
          ["periodo_nao_cobre_ano_atual: " ++ si.iso ++ " - " ++
            (stop?.getD cd).iso ++ " [" ++ (pyStrip det) ++ "]"]) rest
    else
      if si.ble ⟨year, 1, 1⟩ && (⟨year, 12, 31⟩ : Date).ble (stop?.getD cd) then
        (true, String.intercalate "; " (motivos ++
          ["cobre_" ++ toString year ++ "_inteiro: " ++ si.iso ++ " - " ++
            (stop?.getD cd).iso ++ " (" ++
            toString (Date.subDays ⟨year, 12, 31⟩ ⟨year, 1, 1⟩ + 1) ++ " dias) [" ++
            (pyStrip det) ++ "]"]))
      else cobre_loop year cd motivos rest

/-- `cobre_ano_com_regras` of `codigocomentado.py` lines 190-225;
`consulta_date=None` defaults to `date.today()`, made explicit as `today`. -/
def cobre_ano_com_regras (P : List PeriodR) (year : Nat)
    (consulta_date : Option Date) (today : Date) : Bool × String :=
  cobre_loop year (consulta_date.getD today) [] P

/-- The scan loop of `covers_year_with_rules`
(`Usando Outras Tentativas/consulta.py` lines 109-124): unlike
`cobre_ano_com_regras`, a failed current-year test falls through to the
full-year test, nothing is accumulated on failure, and the `False` reason is
always `"nenhum_periodo_encontrado"`. -/
def covers_rules_loop (year : Nat) (cd : Date) (motivos : List String) :
    List PeriodR → Bool × String
  | [] => (false, "nenhum_periodo_encontrado")
  | ⟨none, _, _⟩ :: rest => covers_rules_loop year cd motivos rest
  | ⟨some si, stop?, det⟩ :: rest =>
    if year = cd.year && si.ble ⟨year, 1, 1⟩ && cd.ble (stop?.getD cd) then
      (true, String.intercalate "; " (motivos ++
        ["cobre " ++ toString year ++ " até " ++ cd.iso ++ " [" ++ (pyStrip det) ++ "]"]))
    else if si.ble ⟨year, 1, 1⟩ && (⟨year, 12, 31⟩ : Date).ble (stop?.getD cd) then
      (true, String.intercalate "; " (motivos ++
        ["cobre " ++ toString year ++ " inteiro [" ++ (pyStrip det) ++ "]"]))
    else covers_rules_loop year cd motivos rest

/-- `covers_year_with_rules` of `Usando Outras Tentativas/consulta.py` lines
102-125; `consulta_date=None` defaults to `date.today()`, made explicit as
`today`. -/
def covers_year_with_rules (P : List PeriodR) (year : Nat)
    (consulta_date : Option Date) (today : Date) : Bool × String :=
  covers_rules_loop year (consulta_date.getD today) [] P

/-- `month_date_range` of `Interface/app.py` lines 104-107. -/
def month_date_range (year month : Nat) : Date × Date :=
  (⟨year, month, 1⟩, ⟨year, month, monthDays year month⟩)

/-- First loop of `is_month_fully_covered` (`Interface/app.py` lines
113-125): a period covering the whole month decides `True`. -/
def imfc_loop1 (startM endM : Date) (year month : Nat) (hoje : Date) :
    List PeriodR → Option (Bool × String)
  | [] => none
  | ⟨none, _, _⟩ :: rest => imfc_loop1 startM endM year month hoje rest
  | ⟨some si, stop?, _⟩ :: rest =>
    if si.ble startM && endM.ble (stop?.getD hoje) then
      if year = hoje.year && month = hoje.month && stop?.isNone then
        some (true, "Status atual é Simples Nacional.")
      else some (true, "Permaneceu no Simples Nacional o mês inteiro.")
    else imfc_loop1 startM endM year month hoje rest

/-- Second loop of `is_month_fully_covered` (`Interface/app.py` lines
127-134): a closed period ending before the month's end decides `False` with
the exclusion date. -/
def imfc_loop2 (endM : Date) : List PeriodR → Option (Bool × String)
  | [] => none
  | ⟨some si, some ei, _⟩ :: rest =>
    if si.ble endM && ei.blt endM then
      some (false, "Excluída do Simples Nacional em " ++ ei.iso ++ ".")
    else imfc_loop2 endM rest
  | _ :: rest => imfc_loop2 endM rest

/-- `is_month_fully_covered` of `Interface/app.py` lines 109-136; the
`date.today()` it reads is the explicit `hoje` parameter. -/
def is_month_fully_covered (P : List PeriodR) (year month : Nat)
    (hoje : Date) : Bool × String :=
  match imfc_loop1 (month_date_range year month).1 (month_date_range year month).2
      year month hoje P with
  | some res => res
  | none =>
    match imfc_loop2 (month_date_range year month).2 P with
    | some res => res
    | none => (false, "Não optante/Nunca esteve no Simples Nacional neste mês.")

/-- Forget the `detalhe` of a dict period, giving the tuple shape consumed by
`covers_year_strict`. -/
def periodToTuple (p : PeriodR) : PeriodT := (p.start, p.stop)

theorem cobre_loop_implies_any (year : Nat) (cd : Date) (hy : year ≤ 9999)
    (hm : 1 ≤ cd.month) (hd : 1 ≤ cd.day) (P : List PeriodR) :
    ∀ motivos : List String,
      (cobre_loop year cd motivos P).1 = true →
      (P.map periodToTuple).any (strictHit ⟨year, 1, 1⟩ ⟨year, 12, 31⟩) = true := by
  induction P with
  | nil => intro motivos h; simp [cobre_loop] at h
  | cons p rest ih =>
    intro motivos h
    obtain ⟨st?, stop?, det⟩ := p
    cases st? with
    | none =>
      simp only [cobre_loop] at h
      simp only [List.map_cons, List.any_cons, periodToTuple, strictHit]
      simp only [Bool.or_eq_true]
      exact Or.inr (ih _ h)
    | some si =>
      by_cases hyc : year = cd.year
      · by_cases hcond : (si.ble ⟨year, 1, 1⟩ && cd.ble (stop?.getD cd)) = true
        · obtain ⟨h1, h2⟩ := Bool.and_eq_true _ _ |>.mp hcond
          have hhit : strictHit ⟨year, 1, 1⟩ ⟨year, 12, 31⟩ (some si, stop?) = true := by
            show (si.ble ⟨year, 12, 31⟩ &&
              (⟨year, 1, 1⟩ : Date).ble (stop?.getD MAX_DATE)) = true
            rw [Bool.and_eq_true]
            refine ⟨Date.ble_trans h1 (Date.jan1_ble_dec31 year), ?_⟩
            cases stop? with
            | none => exact Date.jan1_ble_max hy
            | some e =>
              exact Date.ble_trans (Date.jan1_ble_same_year hyc.symm hm hd)
                (by simpa using h2)
          simp [periodToTuple, hhit]
        · simp only [cobre_loop, if_pos hyc, if_neg hcond] at h
          simp only [List.map_cons, List.any_cons, Bool.or_eq_true]
          exact Or.inr (ih _ h)
      · by_cases hcond : (si.ble ⟨year, 1, 1⟩ &&
            (⟨year, 12, 31⟩ : Date).ble (stop?.getD cd)) = true
        · obtain ⟨h1, h2⟩ := Bool.and_eq_true _ _ |>.mp hcond
          have hhit : strictHit ⟨year, 1, 1⟩ ⟨year, 12, 31⟩ (some si, stop?) = true := by
            show (si.ble ⟨year, 12, 31⟩ &&
              (⟨year, 1, 1⟩ : Date).ble (stop?.getD MAX_DATE)) = true
            rw [Bool.and_eq_true]
            refine ⟨Date.ble_trans h1 (Date.jan1_ble_dec31 year), ?_⟩
            cases stop? with
            | none => exact Date.jan1_ble_max hy
            | some e =>
              exact Date.ble_trans (Date.jan1_ble_dec31 year) (by simpa using h2)
          simp [periodToTuple, hhit]
        · simp only [cobre_loop, if_neg hyc, if_neg hcond] at h
          simp only [List.map_cons, List.any_cons, Bool.or_eq_true]
          exact Or.inr (ih _ h)

/-- C2 counterexample: the two per-year classifiers are not interchangeable.
The single ongoing period starting 2020-06-01 merely overlaps 2020, so
`covers_year_strict` classifies 2020 as covered, but it does not cover the
whole year, so `cobre_ano_com_regras` (consulted on 2025-01-15) does not. -/
theorem classifiers_not_interchangeable :
    (covers_year_strict [(some ⟨2020, 6, 1⟩, none)] 2020).1 = true
    ∧ (cobre_ano_com_regras [⟨some ⟨2020, 6, 1⟩, none, ""⟩] 2020
        (some ⟨2025, 1, 15⟩) ⟨2025, 1, 15⟩).1 = false := by
  constructor
  · decide
  · decide

/-- C2 amended: the classifiers are related by one-directional refinement
only — whenever `cobre_ano_com_regras` classifies a year as covered (at any
valid consultation date), `covers_year_strict` does too; the converse fails
(`classifiers_not_interchangeable`). -/
theorem cobre_implies_covers_strict (P : List PeriodR) (year : Nat)
    (cd0 : Option Date) (today : Date) (hy : year ≤ 9999)
    (hm : 1 ≤ (cd0.getD today).month) (hd : 1 ≤ (cd0.getD today).day)
    (h : (cobre_ano_com_regras P year cd0 today).1 = true) :
    (covers_year_strict (P.map periodToTuple) year).1 = true := by
  rw [covers_year_strict, covers_year_strict_go_fst]
  exact cobre_loop_implies_any year (cd0.getD today) hy hm hd P [] h

/-- Witness for the amended C2 at a concrete input: a period covering
2020-01-01 through 2025-12-31 makes `cobre_ano_com_regras` accept 2020, and
therefore `covers_year_strict` as well. -/
theorem cobre_implies_covers_strict_witness :
    (covers_year_strict
      ([⟨some ⟨2020, 1, 1⟩, some ⟨2025, 12, 31⟩, "x"⟩].map periodToTuple) 2020).1 = true :=
  cobre_implies_covers_strict [⟨some ⟨2020, 1, 1⟩, some ⟨2025, 12, 31⟩, "x"⟩] 2020
    (some ⟨2025, 3, 10⟩) ⟨2025, 3, 10⟩ (by decide) (by decide) (by decide) (by decide)

/-- C3 counterexample: with `consulta_date` left at its default, the result
of `covers_year_with_rules` depends on the current date (`True` when today is
2025-06-01, `False` when today is 2024-06-01, for the same arguments), and so
does `is_month_fully_covered`. -/
theorem default_consulta_depends_on_today :
    (covers_year_with_rules [⟨some ⟨2020, 1, 1⟩, none, ""⟩] 2025 none ⟨2025, 6, 1⟩).1 = true
    ∧ (covers_year_with_rules [⟨some ⟨2020, 1, 1⟩, none, ""⟩] 2025 none ⟨2024, 6, 1⟩).1 = false
    ∧ (is_month_fully_covered [⟨some ⟨2020, 1, 1⟩, none, ""⟩] 2025 6 ⟨2025, 6, 30⟩).1 = true
    ∧ (is_month_fully_covered [⟨some ⟨2020, 1, 1⟩, none, ""⟩] 2025 6 ⟨2025, 5, 1⟩).1 = false := by
  refine ⟨by decide, by decide, by decide, by decide⟩

/-- C3 amended: the classification is a pure function of its explicit
arguments once the consultation date is supplied explicitly — with
`consulta_date` given, `covers_year_with_rules` returns the same boolean and
reason whatever the ambient current date; with the default (and in
`is_month_fully_covered`, which always reads `date.today()`), the result can
depend on the current date (`default_consulta_depends_on_today`). -/
theorem covers_year_with_rules_explicit_pure (P : List PeriodR) (year : Nat)
    (cd t1 t2 : Date) :
    covers_year_with_rules P year (some cd) t1 =
      covers_year_with_rules P year (some cd) t2 := rfl

theorem cobre_loop_append_true (year : Nat) (cd : Date) (Q R : List PeriodR) :
    ∀ motivos, (cobre_loop year cd motivos Q).1 = true →
      (cobre_loop year cd motivos (Q ++ R)).1 = true := by
  induction Q with
  | nil => intro motivos h; simp [cobre_loop] at h
  | cons p rest ih =>
    intro motivos h
    obtain ⟨st?, stop?, det⟩ := p
    cases st? with
    | none =>
      simp only [List.cons_append, cobre_loop] at h ⊢
      exact ih _ h
    | some si =>
      by_cases hyc : year = cd.year
      · by_cases hcond : (si.ble ⟨year, 1, 1⟩ && cd.ble (stop?.getD cd)) = true
        · simp only [List.cons_append, cobre_loop, if_pos hyc, if_pos hcond] at h ⊢
        · simp only [List.cons_append, cobre_loop, if_pos hyc, if_neg hcond] at h ⊢
          exact ih _ h
      · by_cases hcond : (si.ble ⟨year, 1, 1⟩ &&
            (⟨year, 12, 31⟩ : Date).ble (stop?.getD cd)) = true
        · simp only [List.cons_append, cobre_loop, if_neg hyc, if_pos hcond] at h ⊢
        · simp only [List.cons_append, cobre_loop, if_neg hyc, if_neg hcond] at h ⊢
          exact ih _ h

/-- C9: the coverage classifiers are monotone in the period list — if
`covers_year_strict` (or `cobre_ano_com_regras` at a fixed consultation date)
classifies a year as covered, it still does after appending one more
period. -/
theorem coverage_monotone (P : List PeriodT) (p : PeriodT) (Q : List PeriodR)
    (q : PeriodR) (year : Nat) (cd0 : Option Date) (today : Date) :
    ((covers_year_strict P year).1 = true →
      (covers_year_strict (P ++ [p]) year).1 = true)
    ∧ ((cobre_ano_com_regras Q year cd0 today).1 = true →
      (cobre_ano_com_regras (Q ++ [q]) year cd0 today).1 = true) := by
  constructor
  · intro h
    rw [covers_year_strict, covers_year_strict_go_fst] at h ⊢
    rw [List.any_append]
    simp [h]
  · intro h
    exact cobre_loop_append_true year (cd0.getD today) Q [q] [] h

/-- Witness for C9 at a concrete input: appending the period
(2021-01-01, ongoing) preserves both classifiers' `True` on 2020. -/
theorem coverage_monotone_witness :
    (covers_year_strict
      ([(some ⟨2020, 6, 1⟩, none)] ++ [(some ⟨2021, 1, 1⟩, none)]) 2020).1 = true
    ∧ (cobre_ano_com_regras
      ([⟨some ⟨2019, 1, 1⟩, none, ""⟩] ++ [⟨some ⟨2021, 1, 1⟩, none, ""⟩]) 2020
        (some ⟨2025, 1, 15⟩) ⟨2025, 1, 15⟩).1 = true := by
  constructor
  · exact (coverage_monotone [(some ⟨2020, 6, 1⟩, none)] (some ⟨2021, 1, 1⟩, none)
      [] ⟨none, none, ""⟩ 2020 none ⟨2025, 1, 15⟩).1 (by decide)
  · exact (coverage_monotone [] (none, none) [⟨some ⟨2019, 1, 1⟩, none, ""⟩]
      ⟨some ⟨2021, 1, 1⟩, none, ""⟩ 2020 (some ⟨2025, 1, 15⟩) ⟨2025, 1, 15⟩).2 (by decide)

/-- `YEARS = list(range(2020, 2026))` (`consulta_simples.py` line 22,
`codigocomentado.py` line 21, `Usando Outras Tentativas/consulta.py` line 19;
`Usando BrasilAPI` inlines `range(2020, 2025 + 1)`, the same years). -/
def YEARS : List Nat := [2020, 2021, 2022, 2023, 2024, 2025]

/-- One output row: the Python dict appended to `rows`, keys in insertion
order with JSON-shaped values. -/
abbrev Row := List (String × Json)

/-- An API response parsed from JSON. The scripts call `.get` on it
unconditionally, so the oracles below produce it in object shape. -/
abbrev Jdict := List (String × Json)

def lookupJ (fs : Jdict) (k : String) : Option Json := fs.lookup k

/-- `read_cnpjs` of `consulta_simples.py` lines 36-43 (same list
comprehension in the other dict scripts): keep non-blank lines, strip and
clean each. -/
def read_cnpjs (lines : List String) : List String :=
  (lines.filter fun l => (pyStrip l) != "").map fun l => clean_cnpj (pyStrip l)

/-- `extract_periods_from_response` of
`Usando Outras Tentativas/consulta.py` lines 70-91 (ReceitaWS shape): only
`"opcao_pelo_simples" is True` yields a (single) period, and only when the
option date parses. -/
def extract_periods_ot (parse : Json → Option Date) (resp : Json) :
    List PeriodR :=
  if !resp.truthy || !resp.isObj then []
  else
    match resp.get "opcao_pelo_simples" with
    | some (.bool true) =>
      match parse_date_any parse (resp.get "data_opcao_pelo_simples") with
      | some si =>
        [⟨some si, parse_date_any parse (resp.get "data_exclusao_do_simples"),
          "ReceitaWS - opção pelo Simples"⟩]
      | none => []
    | _ => []

/-- `periodos_para_string` of `codigocomentado.py` lines 175-183
(`periods_to_string` of `Usando Outras Tentativas/consulta.py` lines 93-100
is character-for-character the same). -/
def periodos_para_string (periods : List PeriodR) : String :=
  String.intercalate "; " (periods.map fun p =>
    (match p.start with
     | some s => s.iso
     | none => "") ++ " - " ++
    (match p.stop with
     | some e => e.iso
     | none => "até hoje") ++
    " [" ++ p.detalhe ++ "]")

/-- Error row of `consulta_simples.py` lines 185 and 192 (five keys, the
identifier joined with a slash). -/
def rowErroCS (cnpj : String) (y : Nat) (regime motivo : String) : Row :=
  [("CNPJ+ANO", .str (cnpj ++ "/" ++ toString y)), ("CNPJ", .str cnpj),
   ("Ano", .num (y : Int)), ("Regime", .str regime), ("Motivo", .str motivo)]

/-- Success rows of `consulta_simples.py` lines 229-240: one per year, with
the extra empty column and — unlike the error rows — no slash in the
identifier (line 234). The `situacao_atual` read at line 218 never reaches
the rows (it only feeds a debug print), but it can raise; that abort is
modelled by `dataItemRaisesCS` / `block_cs_run`, and these are the rows of an
iteration that completes. -/
def rowsSuccessCS (parse : Json → Option Date) (fields : Jdict)
    (cnpj : String) : List Row :=
  let periods := extract_periods_from_response parse (Json.obj fields)
  YEARS.map fun y =>
    let r := covers_year_strict periods y
    [("CNPJ+ANO", .str (cnpj ++ toString y)), ("CNPJ", .str cnpj),
     ("Ano", .num (y : Int)),
     ("Regime", .str (if r.1 then "Simples Nacional" else "Outro Regime")),
     ("", .str ""), ("Motivo", .str r.2)]

/-- `code == 200` for the raw `"code"` value of the response (Python `==`
between a JSON value and the integer 200). -/
def isCode200 : Option Json → Bool
  | some (.num 200) => true
  | _ => false

/-- One iteration of the batch loop of `consulta_simples.py` lines 178-240:
the rows it appends for one CNPJ, driven by the query oracle
`q : cnpj ↦ (status_code?, parsed_json?)`, assuming the iteration completes
(`block_cs_run` adds the line-218 abort). -/
def block_cs (parse : Json → Option Date)
    (q : String → Option Nat × Option Jdict) (cnpj : String) : List Row :=
  match q cnpj with
  | (none, _) =>
    YEARS.map fun y => rowErroCS cnpj y "ERRO_REQUISICAO" "erro_requisicao"
  | (some _, none) =>
    YEARS.map fun y => rowErroCS cnpj y "ERRO_RESP_NAO_JSON" "resp_nao_json"
  | (some _, some fields) =>
    if isCode200 (lookupJ fields "code") then rowsSuccessCS parse fields cnpj
    else
      YEARS.map fun (y : Nat) =>
        [("CNPJ+ANO", .str (cnpj ++ "/" ++ toString y)), ("CNPJ", .str cnpj),
         ("Ano", .num (y : Int)),
         ("Regime", .str ("API_CODE_" ++ pyStrOpt (lookupJ fields "code"))),
         ("Motivo", (lookupJ fields "code_message").getD (.str "sem mensagem"))]

/-- The `rows` list of `main` in `consulta_simples.py` (lines 172-243), when
every iteration completes: the loop appends each CNPJ's block in input order
(`mainRows_cs_run` adds the abort path). -/
def mainRows_cs (parse : Json → Option Date)
    (q : String → Option Nat × Option Jdict) (cnpjs : List String) : List Row :=
  cnpjs.flatMap (block_cs parse q)

/-- `consulta_simples.py` lines 210-215: the `data_item` block (first element
of a nonempty `"data"` list, or the `"data"` dict, else `None`). -/
def dataItemCS (fields : Jdict) : Option Json :=
  match lookupJ fields "data" with
  | some (.arr (x :: _)) => some x
  | some (.obj gs) => some (.obj gs)
  | _ => none

/-- Line 218, `data_item.get("simples_nacional_situacao") if data_item else
None`, raises `AttributeError` — aborting the whole run with no spreadsheet —
exactly when `data_item` is truthy and not a dict. -/
def dataItemRaisesCS (fields : Jdict) : Bool :=
  match dataItemCS fields with
  | some d => d.truthy && !d.isObj
  | none => false

/-- One iteration of the `consulta_simples.py` batch loop with its abort
path: `none` is the uncaught `AttributeError` of line 218, reached only on
the `code == 200` success path (the error branches `continue` before it). -/
def block_cs_run (parse : Json → Option Date)
    (q : String → Option Nat × Option Jdict) (cnpj : String) :
    Option (List Row) :=
  match q cnpj with
  | (some _, some fields) =>
    if isCode200 (lookupJ fields "code") && dataItemRaisesCS fields then none
    else some (block_cs parse q cnpj)
  | _ => some (block_cs parse q cnpj)

/-- Run per-CNPJ iterations in order, concatenating their rows; an uncaught
exception (`none`) in any iteration ends the run before the spreadsheet is
written, so no row list is produced at all. -/
def runBlocks {α : Type} (blockRun : α → Option (List Row)) :
    List α → Option (List Row)
  | [] => some []
  | c :: rest =>
    match blockRun c with
    | none => none
    | some B => (runBlocks blockRun rest).map fun rs => B ++ rs

/-- `main` of `consulta_simples.py` with the abort path: `none` means the
run died on an uncaught exception and `df.to_excel` was never reached. -/
def mainRows_cs_run (parse : Json → Option Date)
    (q : String → Option Nat × Option Jdict) (cnpjs : List String) :
    Option (List Row) :=
  runBlocks (block_cs_run parse q) cnpjs

/-- Error row with the seven-key shape of
`Usando Outras Tentativas/consulta.py` lines 139-146 and 152-159
(`codigocomentado.py` lines 238-245 and 253-260 build the identical dict). -/
def rowErroOT (cnpj : String) (y : Nat) (regime : String) (motivo : Json) : Row :=
  [("CNPJ+ANO", .str (cnpj ++ "/" ++ toString y)), ("CNPJ", .str cnpj),
   ("Ano", .num (y : Int)), ("Regime", .str regime), ("Motivo", motivo),
   ("Períodos_detectados", .str "")]

/-- `situacao_atual or ""` as stored in the success rows. -/
def situacaoCell (situacao : Option Json) : Json :=
  match situacao with
  | some j => if j.truthy then j else .str ""
  | none => .str ""

/-- `resp_json.get("status") == "ERROR"`
(`Usando Outras Tentativas/consulta.py` line 149). -/
def isStatusError : Option Json → Bool
  | some (.str "ERROR") => true
  | _ => false

/-- Success rows of `Usando Outras Tentativas/consulta.py` lines 162-177:
`covers_year_with_rules` is called without `consulta_date`, so it reads the
ambient current date (`today`). -/
def rowsSuccessOT (parse : Json → Option Date) (fields : Jdict) (today : Date)
    (cnpj : String) : List Row :=
  let situacao := lookupJ fields "situacao"
  let periods := extract_periods_ot parse (Json.obj fields)
  let periodsStr := periodos_para_string periods
  YEARS.map fun y =>
    let r := covers_year_with_rules periods y none today
    [("CNPJ+ANO", .str (cnpj ++ "/" ++ toString y)), ("CNPJ", .str cnpj),
     ("Ano", .num (y : Int)),
     ("Regime", .str (if r.1 then "Simples Nacional" else "Outro Regime")),
     ("Motivo", .str r.2), ("Períodos_detectados", .str periodsStr),
     ("Situacao_Atual", situacaoCell situacao)]

/-- One iteration of the batch loop of
`Usando Outras Tentativas/consulta.py` lines 134-180. -/
def block_ot (parse : Json → Option Date)
    (q : String → Option Nat × Option Jdict) (today : Date)
    (cnpj : String) : List Row :=
  match q cnpj with
  | (none, _) =>
    YEARS.map fun y => rowErroOT cnpj y "ERRO_CONSULTA" (.str "erro_requisicao_ou_resp")
  | (some _, none) =>
    YEARS.map fun y => rowErroOT cnpj y "ERRO_CONSULTA" (.str "erro_requisicao_ou_resp")
  | (some _, some fields) =>
    if isStatusError (lookupJ fields "status") then
      YEARS.map fun y =>
        rowErroOT cnpj y "API_ERROR" ((lookupJ fields "message").getD (.str "sem mensagem"))
    else rowsSuccessOT parse fields today cnpj

/-- The full `rows` list of `main` in
`Usando Outras Tentativas/consulta.py` (lines 130-180). -/
def mainRows_ot (parse : Json → Option Date)
    (q : String → Option Nat × Option Jdict) (today : Date)
    (cnpjs : List String) : List Row :=
  cnpjs.flatMap (block_ot parse q today)

/-- Python `str.lower()` restricted to the characters these scripts compare:
ASCII letters plus the accented Latin-1 capitals that can occur in
`situacao` strings such as "NÃO OPTANTE". -/
def pyLowerChar (c : Char) : Char :=
  if 'A' ≤ c ∧ c ≤ 'Z' then Char.ofNat (c.toNat + 32)
  else if c = 'Ã' then 'ã'
  else if c = 'Á' then 'á'
  else if c = 'À' then 'à'
  else if c = 'Â' then 'â'
  else if c = 'Ç' then 'ç'
  else if c = 'É' then 'é'
  else if c = 'Ê' then 'ê'
  else if c = 'Í' then 'í'
  else if c = 'Ó' then 'ó'
  else if c = 'Ô' then 'ô'
  else if c = 'Õ' then 'õ'
  else if c = 'Ú' then 'ú'
  else c

def pyLower (s : String) : String := String.mk (s.data.map pyLowerChar)

/-- Python `needle in hay` on strings: substring containment. -/
def containsSub (hay needle : String) : Bool :=
  hay.data.tails.any fun t => needle.data.isPrefixOf t

/-- The match attempt of `re.search(r"desde (\d{2}/\d{2}/\d{4})", s)` at one
position: the literal `desde ` followed by the captured `dd/dd/dddd`. -/
def matchDesdeAt : List Char → Option String
  | 'd' :: 'e' :: 's' :: 'd' :: 'e' :: ' ' :: d1 :: d2 :: '/' :: m1 :: m2 :: '/' ::
      y1 :: y2 :: y3 :: y4 :: _ =>
    if d1.isDigit && d2.isDigit && m1.isDigit && m2.isDigit &&
        y1.isDigit && y2.isDigit && y3.isDigit && y4.isDigit then
      some (String.mk [d1, d2, '/', m1, m2, '/', y1, y2, y3, y4])
    else none
  | _ => none

/-- `re.search` scans left to right and yields the first position where the
pattern matches (`codigocomentado.py` line 282). -/
def findDesde : List Char → Option String
  | [] => none
  | c :: rest =>
    match matchDesdeAt (c :: rest) with
    | some g => some g
    | none => findDesde rest

/-- `codigocomentado.py` lines 264-270: the `data` item, falling back to the
whole response. -/
def dataItemCC (fields : Jdict) : Json :=
  match lookupJ fields "data" with
  | some (.arr (x :: _)) => x
  | some (.obj gs) => .obj gs
  | _ => .obj fields

/-- `codigocomentado.py` lines 272-275: `situacao_atual`, an `or`-chain over
three keys guarded by `isinstance(data_item, dict)` (collapsed to `none` when
every candidate is falsy, which every later use treats identically). -/
def situacaoAtualCC (dataItem : Json) : Option Json :=
  if dataItem.isObj then
    orGets dataItem ["simples_nacional_situacao", "situacao_simples", "situacao"]
  else none

/-- `codigocomentado.py` lines 281-286: when extraction found nothing and the
situação string is truthy and does not read "não optante", a period may be
scraped from a `desde dd/mm/yyyy` fragment of `str(situacao_atual)`. -/
def fallbackPeriodsCC (parse : Json → Option Date) (periods : List PeriodR)
    (situacao : Option Json) : List PeriodR :=
  match situacao with
  | some j =>
    if periods.isEmpty && j.truthy &&
        !containsSub (pyLower j.pyStr) "não optante" then
      match findDesde j.pyStr.data with
      | some g =>
        match parse_date_any parse (some (.str g)) with
        | some st => periods ++ [⟨some st, none, "situação_atual"⟩]
        | none => periods
      | none => periods
    else periods
  | none => periods

/-- Success rows of `codigocomentado.py` lines 295-307:
`cobre_ano_com_regras` is called with `consulta_date=date.today()`. -/
def rowsSuccessCC (parse : Json → Option Date) (fields : Jdict) (today : Date)
    (cnpj : String) : List Row :=
  let dataItem := dataItemCC fields
  let situacao := situacaoAtualCC dataItem
  let periods := fallbackPeriodsCC parse
    (extrair_periodos_da_resposta parse (Json.obj fields)) situacao
  let periodsStr := if periods.isEmpty then "" else periodos_para_string periods
  YEARS.map fun y =>
    let r := cobre_ano_com_regras periods y (some today) today
    [("CNPJ+ANO", .str (cnpj ++ "/" ++ toString y)), ("CNPJ", .str cnpj),
     ("Ano", .num (y : Int)),
     ("Regime", .str (if r.1 then "Simples Nacional" else "Outro Regime")),
     ("Motivo", .str r.2), ("Períodos_detectados", .str periodsStr),
     ("Situacao_Atual", situacaoCell situacao)]

/-- `code is not None and code != 200` (`codigocomentado.py` line 250): an
absent `code` key — and a JSON-null value, which `dict.get` also hands back
as Python `None` — goes to the success path. -/
def ccCodePresentNot200 : Option Json → Bool
  | none => false
  | some .null => false
  | some (.num 200) => false
  | some _ => true

/-- One iteration of the batch loop of `codigocomentado.py` lines 232-309. -/
def block_cc (parse : Json → Option Date)
    (q : String → Option Nat × Option Jdict) (today : Date)
    (cnpj : String) : List Row :=
  match q cnpj with
  | (none, _) =>
    YEARS.map fun y => rowErroOT cnpj y "ERRO_CONSULTA" (.str "erro_requisicao_ou_resp")
  | (some _, none) =>
    YEARS.map fun y => rowErroOT cnpj y "ERRO_CONSULTA" (.str "erro_requisicao_ou_resp")
  | (some _, some fields) =>
    if ccCodePresentNot200 (lookupJ fields "code") then
      YEARS.map fun y =>
        rowErroOT cnpj y ("API_CODE_" ++ pyStrOpt (lookupJ fields "code"))
          ((lookupJ fields "code_message").getD (.str "sem mensagem"))
    else rowsSuccessCC parse fields today cnpj

/-- The full `rows` list of `main` in `codigocomentado.py` (lines 228-309). -/
def mainRows_cc (parse : Json → Option Date)
    (q : String → Option Nat × Option Jdict) (today : Date)
    (cnpjs : List String) : List Row :=
  cnpjs.flatMap (block_cc parse q today)

/-- Outcome of one HTTP exchange in `Usando BrasilAPI/consulta_simples.py`:
either the request raised, or a status code arrived and `.json()` either
parsed or raised. -/
inductive HttpResult where
  | exn (msg : String)
  | resp (status : Nat) (body : Except String Json)

/-- `consultar_cnpj` of `Usando BrasilAPI/consulta_simples.py` lines 53-64:
status 200 yields the JSON (a `.json()` failure propagates to the broad
`except`), 429 and other statuses yield error strings. -/
def consultar_cnpj (r : HttpResult) : Option Json × Option String :=
  match r with
  | .exn m => (none, some ("Exception:" ++ m))
  | .resp 200 (.ok j) => (some j, none)
  | .resp 200 (.error m) => (none, some ("Exception:" ++ m))
  | .resp 429 _ => (none, some "Erro 429 (muitas requisições)")
  | .resp st _ => (none, some ("Erro " ++ toString st))

/-- Python `int()` on the JSON values that can sit in the `"ano"` field
(numbers, booleans, decimal strings; anything else raises, modelled as
`none`; Python would also strip whitespace around a numeric string). -/
def jsonToInt : Json → Option Int
  | .num n => some n
  | .bool b => some (if b then 1 else 0)
  | .str s => s.toInt?
  | _ => none

/-- `set.add`: only membership in the year set is ever observed, so a
duplicate-free list models it. -/
def addYear (s : List Nat) (y : Nat) : List Nat :=
  if s.contains y then s else s ++ [y]

/-- One `regime_tributario` entry (`Usando BrasilAPI/consulta_simples.py`
lines 26-36): a SIMPLES forma in 2020-2025 adds the year; an unparseable
`ano` adds an `ano_invalido` reason. `none` is an uncaught `AttributeError`:
`entry.get` on a non-dict entry, or `forma.upper()` on a truthy non-string
`forma_de_tributacao` (a falsy one short-circuits `if forma and ...`). -/
def regimeEntryStep (acc : List Nat × List String) (entry : Json) :
    Option (List Nat × List String) :=
  match entry with
  | .obj _ =>
    let formaJ :=
      match entry.get "forma_de_tributacao" with
      | some v => if v.truthy then v else .str ""
      | none => .str ""
    if formaJ.truthy then
      match formaJ with
      | .str forma =>
        if containsSub forma.toUpper "SIMPLES" then
          match (match entry.get "ano" with
                 | some a => jsonToInt a
                 | none => none) with
          | some anoInt =>
            if 2020 ≤ anoInt ∧ anoInt ≤ 2025 then
              some (addYear acc.1 anoInt.toNat,
                acc.2 ++ ["regime_tributario:" ++ toString anoInt ++ ":" ++ forma])
            else some acc
          | none =>
            some (acc.1, acc.2 ++ ["regime_tributario:ano_invalido:" ++ forma])
        else some acc
      | _ => none
    else some acc
  | _ => none

/-- `extract_simples_years` of `Usando BrasilAPI/consulta_simples.py` lines
21-51: years from `regime_tributario` entries, then years spanned by the
option/exclusion dates clamped to 2020-2025. `none` is an uncaught
exception aborting the run: `j.get` on a non-dict 200-body, iterating a
truthy non-list `regime_tributario` (`for` over a number raises; over a dict
or string, `entry.get` raises on its keys/characters), or a raising entry. -/
def extract_simples_years (parse : Json → Option Date) (j : Json) :
    Option (List Nat × List String) :=
  match j with
  | .obj _ =>
    let entries? : Option (List Json) :=
      match j.get "regime_tributario" with
      | none => some []
      | some v =>
        if v.truthy then
          match v with
          | .arr xs => some xs
          | _ => none
        else some []
    match entries? with
    | none => none
    | some entries =>
      match entries.foldlM regimeEntryStep ([], []) with
      | none => none
      | some acc1 =>
        some (match parse_date_any parse (j.get "data_opcao_pelo_simples") with
          | some di =>
            let df? := parse_date_any parse (j.get "data_exclusao_do_simples")
            let startYear := max di.year 2020
            let endYear := min (match df? with
                                | some df => df.year
                                | none => 2025) 2025
            ((List.range' startYear (endYear + 1 - startYear)).foldl addYear acc1.1,
             acc1.2 ++ ["periodo:" ++ di.iso ++ " - " ++
               (match df? with
                | some df => df.iso
                | none => "atual")])
          | none => acc1)
  | _ => none

/-- One iteration of `processar` (`Usando BrasilAPI/consulta_simples.py`
lines 70-101), over an oracle giving each CNPJ's HTTP outcome. The error
test is `if erro:`; `consultar_cnpj` never pairs a falsy `erro` with a
missing JSON, so the `getD` default is never read. `none` is an uncaught
exception inside `extract_simples_years` aborting the run. -/
def block_bapi_run (parse : Json → Option Date) (oracle : String → HttpResult)
    (cnpj : String) : Option (List Row) :=
  let qr := consultar_cnpj (oracle cnpj)
  if (match qr.2 with
      | some m => m != ""
      | none => false) then
    some (YEARS.map fun (ano : Nat) =>
      [("CNPJ+ANO", .str (cnpj ++ toString ano)), ("CNPJ", .str cnpj),
       ("Ano", .num (ano : Int)), ("Regime", .str "ERRO"),
       ("Motivo", .str ((qr.2).getD ""))])
  else
    match extract_simples_years parse (qr.1.getD Json.null) with
    | none => none
    | some r =>
      some (YEARS.map fun (ano : Nat) =>
        if r.1.contains ano then
          [("CNPJ+ANO", .str (cnpj ++ toString ano)), ("CNPJ", .str cnpj),
           ("Ano", .num (ano : Int)), ("Regime", .str "Simples Nacional"),
           ("Motivo", .str (String.intercalate ";" r.2))]
        else
          [("CNPJ+ANO", .str (cnpj ++ toString ano)), ("CNPJ", .str cnpj),
           ("Ano", .num (ano : Int)), ("Regime", .str "Outro Regime"),
           ("Motivo", .str "sem_evidencia_simples")])

/-- `read_cnpjs` of `Usando BrasilAPI/consulta_simples.py` lines 9-11: this
variant keeps the stripped lines without cleaning them. -/
def read_cnpjs_bapi (lines : List String) : List String :=
  (lines.filter fun l => (pyStrip l) != "").map fun l => (pyStrip l)

/-- `processar` with its abort path: the `resultados` list reaches
`df.to_excel` only when every iteration completes; an uncaught exception
(`none`) means no spreadsheet at all. -/
def processar_run (parse : Json → Option Date) (oracle : String → HttpResult)
    (cnpjs : List String) : Option (List Row) :=
  runBlocks (block_bapi_run parse oracle) cnpjs

/-- Events of the batch loop relevant to rate limiting. -/
inductive Ev where
  | req (cnpj : String)
  | sleep (seconds : ℚ)
deriving DecidableEq, Repr

/-- `SLEEP = 0.5` (`consulta_simples.py` line 23). -/
def SLEEP_cs : ℚ := 1 / 2

/-- `SLEEP = 21.0` (`Usando Outras Tentativas/consulta.py` line 20). -/
def SLEEP_ot : ℚ := 21

/-- The events of one iteration of `main` in `consulta_simples.py`: the
request always happens; `time.sleep(SLEEP)` runs only on the non-JSON branch
(line 193) and the success branch (line 242) — the request-error branch
(lines 182-186) and the `code != 200` branch (lines 196-208) `continue`
without sleeping. -/
def trace_block_cs (q : String → Option Nat × Option Jdict)
    (cnpj : String) : List Ev :=
  Ev.req cnpj ::
    (match q cnpj with
     | (none, _) => []
     | (some _, none) => [Ev.sleep SLEEP_cs]
     | (some _, some fields) =>
       if isCode200 (lookupJ fields "code") then [Ev.sleep SLEEP_cs] else [])

def trace_cs (q : String → Option Nat × Option Jdict)
    (cnpjs : List String) : List Ev :=
  cnpjs.flatMap (trace_block_cs q)

/-- The events of one iteration of `main` in
`Usando Outras Tentativas/consulta.py`: `time.sleep(SLEEP)` runs only on the
success path (line 180); both error branches `continue` without sleeping. -/
def trace_block_ot (q : String → Option Nat × Option Jdict)
    (cnpj : String) : List Ev :=
  Ev.req cnpj ::
    (match q cnpj with
     | (none, _) => []
     | (some _, none) => []
     | (some _, some fields) =>
       if isStatusError (lookupJ fields "status") then [] else [Ev.sleep SLEEP_ot])

def trace_ot (q : String → Option Nat × Option Jdict)
    (cnpjs : List String) : List Ev :=
  cnpjs.flatMap (trace_block_ot q)

def isReq : Ev → Bool
  | .req _ => true
  | .sleep _ => false

/-- The claim's temporal property over a trace of requests and sleeps: some
sleep separates every two consecutive requests. -/
def sleeps_between_requests : List Ev → Bool
  | e1 :: e2 :: rest => (!(isReq e1 && isReq e2)) && sleeps_between_requests (e2 :: rest)
  | _ => true

/-- `pd.DataFrame(rows, columns=cols)`: the frame has exactly the declared
columns, each row projected onto them (missing keys become NaN cells,
surplus keys are dropped). -/
def to_dataframe (cols : List String) (rows : List Row) :
    List String × List (List (Option Json)) :=
  (cols, rows.map fun r => cols.map fun c => r.lookup c)

/-- The column list of `consulta_simples.py` line 245. -/
def COLUMNS_cs : List String := ["CNPJ+ANO", "CNPJ", "Ano", "Regime", "", "Motivo"]

/-- The column list of `Usando Outras Tentativas/consulta.py` line 182 (the
ReceitaWS variant). -/
def COLUMNS_ot : List String :=
  ["CNPJ+ANO", "CNPJ", "Ano", "Regime", "Motivo", "Períodos_detectados",
   "Situacao_Atual"]

theorem length_flatMap_const {α β : Type} (f : α → List β) (n : Nat)
    (h : ∀ a, (f a).length = n) (l : List α) :
    (l.flatMap f).length = n * l.length := by
  induction l with
  | nil => simp
  | cons a t ih =>
    rw [List.flatMap_cons, List.length_append, h a, ih, List.length_cons,
      Nat.mul_succ]
    omega

theorem block_ot_length (parse : Json → Option Date)
    (q : String → Option Nat × Option Jdict) (today : Date) (c : String) :
    (block_ot parse q today c).length = 6 := by
  rcases hq : q c with ⟨st?, j?⟩
  cases st? with
  | none => simp [block_ot, hq, YEARS]
  | some st =>
    cases j? with
    | none => simp [block_ot, hq, YEARS]
    | some fields =>
      by_cases herr : isStatusError (lookupJ fields "status") = true
      · simp [block_ot, hq, herr, YEARS]
      · simp [block_ot, hq, herr, rowsSuccessOT, YEARS]

theorem block_cc_length (parse : Json → Option Date)
    (q : String → Option Nat × Option Jdict) (today : Date) (c : String) :
    (block_cc parse q today c).length = 6 := by
  rcases hq : q c with ⟨st?, j?⟩
  cases st? with
  | none => simp [block_cc, hq, YEARS]
  | some st =>
    cases j? with
    | none => simp [block_cc, hq, YEARS]
    | some fields =>
      by_cases herr : ccCodePresentNot200 (lookupJ fields "code") = true
      · simp [block_cc, hq, herr, YEARS]
      · simp [block_cc, hq, herr, rowsSuccessCC, YEARS]

/-- C4: in the batch loops of `Usando Outras Tentativas/consulta.py` and
`codigocomentado.py`, a failed query (no response or non-JSON response)
yields one row per year labelled `ERRO_CONSULTA`, an API `"status": "ERROR"`
answer yields one row per year labelled `API_ERROR` carrying the API's
message, and in every case the loop continues — every CNPJ contributes its
six rows and the row list (the spreadsheet's content) is always produced. -/
theorem error_rows_labelled (parse : Json → Option Date)
    (q : String → Option Nat × Option Jdict) (today : Date)
    (cnpjs : List String) :
    ((mainRows_ot parse q today cnpjs).length = 6 * cnpjs.length)
    ∧ ((mainRows_cc parse q today cnpjs).length = 6 * cnpjs.length)
    ∧ (∀ c : String, (q c).1 = none ∨ (q c).2 = none →
        block_ot parse q today c = YEARS.map (fun y =>
          rowErroOT c y "ERRO_CONSULTA" (.str "erro_requisicao_ou_resp")) ∧
        block_cc parse q today c = YEARS.map (fun y =>
          rowErroOT c y "ERRO_CONSULTA" (.str "erro_requisicao_ou_resp")))
    ∧ (∀ (c : String) (st : Nat) (fields : Jdict),
        q c = (some st, some fields) →
        isStatusError (lookupJ fields "status") = true →
        block_ot parse q today c = YEARS.map (fun y =>
          rowErroOT c y "API_ERROR"
            ((lookupJ fields "message").getD (.str "sem mensagem")))) := by
  refine ⟨length_flatMap_const _ 6 (block_ot_length parse q today) cnpjs,
    length_flatMap_const _ 6 (block_cc_length parse q today) cnpjs, ?_, ?_⟩
  · intro c hc
    rcases hq : q c with ⟨st?, j?⟩
    rw [hq] at hc
    cases st? with
    | none => exact ⟨by simp [block_ot, hq], by simp [block_cc, hq]⟩
    | some st =>
      cases j? with
      | none => exact ⟨by simp [block_ot, hq], by simp [block_cc, hq]⟩
      | some fields => simp at hc
  · intro c st fields hq herr
    simp [block_ot, hq, herr]

/-- Concrete oracles used only by witnesses. -/
def qFailW : String → Option Nat × Option Jdict := fun _ => (none, none)

def qApiErrorW : String → Option Nat × Option Jdict :=
  fun _ => (some 200, some [("status", Json.str "ERROR"), ("message", Json.str "boom")])

/-- Witness for C4 at concrete oracles: a dead connection yields the
`ERRO_CONSULTA` blocks, and a `"status": "ERROR"` answer yields the
`API_ERROR` block with the API message. -/
theorem error_rows_labelled_witness :
    (block_ot parseW qFailW ⟨2025, 1, 1⟩ "00000000000000" = YEARS.map (fun y =>
      rowErroOT "00000000000000" y "ERRO_CONSULTA" (.str "erro_requisicao_ou_resp")))
    ∧ (block_cc parseW qFailW ⟨2025, 1, 1⟩ "00000000000000" = YEARS.map (fun y =>
      rowErroOT "00000000000000" y "ERRO_CONSULTA" (.str "erro_requisicao_ou_resp")))
    ∧ (block_ot parseW qApiErrorW ⟨2025, 1, 1⟩ "00000000000000" = YEARS.map (fun y =>
      rowErroOT "00000000000000" y "API_ERROR" (.str "boom"))) := by
  have h1 := (error_rows_labelled parseW qFailW ⟨2025, 1, 1⟩ []).2.2.1
    "00000000000000" (Or.inl rfl)
  have h2 := (error_rows_labelled parseW qApiErrorW ⟨2025, 1, 1⟩ []).2.2.2
    "00000000000000" 200
    [("status", Json.str "ERROR"), ("message", Json.str "boom")] rfl rfl
  exact ⟨h1.1, h1.2, h2⟩

/-- C7: the DataFrames are built with a statically declared column list, so
for every input and any mix of success and error rows the written frame has
exactly those columns in order, and every row is projected to exactly that
many cells. -/
theorem output_columns_fixed (parse parse2 : Json → Option Date)
    (q q2 : String → Option Nat × Option Jdict) (today : Date)
    (cnpjs cnpjs2 : List String) :
    ((to_dataframe COLUMNS_cs (mainRows_cs parse q cnpjs)).1 =
      ["CNPJ+ANO", "CNPJ", "Ano", "Regime", "", "Motivo"])
    ∧ (∀ i, i < (to_dataframe COLUMNS_cs (mainRows_cs parse q cnpjs)).2.length →
        ((to_dataframe COLUMNS_cs (mainRows_cs parse q cnpjs)).2.getD i []).length = 6)
    ∧ ((to_dataframe COLUMNS_ot (mainRows_ot parse2 q2 today cnpjs2)).1 =
      ["CNPJ+ANO", "CNPJ", "Ano", "Regime", "Motivo", "Períodos_detectados",
       "Situacao_Atual"])
    ∧ (∀ i, i < (to_dataframe COLUMNS_ot (mainRows_ot parse2 q2 today cnpjs2)).2.length →
        ((to_dataframe COLUMNS_ot
          (mainRows_ot parse2 q2 today cnpjs2)).2.getD i []).length = 7) := by
  refine ⟨rfl, ?_, rfl, ?_⟩
  · intro i hi
    rw [List.getD_eq_getElem _ _ (by simpa [to_dataframe] using hi)]
    simp [to_dataframe, COLUMNS_cs]
  · intro i hi
    rw [List.getD_eq_getElem _ _ (by simpa [to_dataframe] using hi)]
    simp [to_dataframe, COLUMNS_ot]

/-- Witness for C7 at a concrete input: the first projected row of a
one-CNPJ run has exactly six (resp. seven) cells. -/
theorem output_columns_fixed_witness :
    ((to_dataframe COLUMNS_cs
      (mainRows_cs parseW qFailW ["00000000000000"])).2.getD 0 []).length = 6
    ∧ ((to_dataframe COLUMNS_ot
      (mainRows_ot parseW qFailW ⟨2025, 1, 1⟩ ["00000000000000"])).2.getD 0 []).length = 7 := by
  constructor
  · exact (output_columns_fixed parseW parseW qFailW qFailW ⟨2025, 1, 1⟩
      ["00000000000000"] ["00000000000000"]).2.1 0 (by decide)
  · exact (output_columns_fixed parseW parseW qFailW qFailW ⟨2025, 1, 1⟩
      ["00000000000000"] ["00000000000000"]).2.2.2 0 (by decide)

/-- The query outcomes after which `main` in `consulta_simples.py` reaches a
`time.sleep(SLEEP)` before the next iteration. -/
def sleepy_cs (qr : Option Nat × Option Jdict) : Bool :=
  match qr with
  | (none, _) => false
  | (some _, none) => true
  | (some _, some fields) => isCode200 (lookupJ fields "code")

/-- The query outcomes after which `main` in
`Usando Outras Tentativas/consulta.py` reaches a `time.sleep(SLEEP)`. -/
def sleepy_ot (qr : Option Nat × Option Jdict) : Bool :=
  match qr with
  | (none, _) => false
  | (some _, none) => false
  | (some _, some fields) => !isStatusError (lookupJ fields "status")

theorem trace_block_cs_of_sleepy {q : String → Option Nat × Option Jdict}
    {c : String} (h : sleepy_cs (q c) = true) :
    trace_block_cs q c = [Ev.req c, Ev.sleep SLEEP_cs] := by
  rcases hq : q c with ⟨st?, j?⟩
  rw [hq] at h
  cases st? with
  | none => simp [sleepy_cs] at h
  | some st =>
    cases j? with
    | none => simp [trace_block_cs, hq]
    | some fields =>
      simp only [sleepy_cs] at h
      simp [trace_block_cs, hq, h]

theorem trace_block_ot_of_sleepy {q : String → Option Nat × Option Jdict}
    {c : String} (h : sleepy_ot (q c) = true) :
    trace_block_ot q c = [Ev.req c, Ev.sleep SLEEP_ot] := by
  rcases hq : q c with ⟨st?, j?⟩
  rw [hq] at h
  cases st? with
  | none => simp [sleepy_ot] at h
  | some st =>
    cases j? with
    | none => simp [sleepy_ot] at h
    | some fields =>
      simp only [sleepy_ot, Bool.not_eq_true'] at h
      simp [trace_block_ot, hq, h]

theorem sbr_sleep_cons (s : ℚ) (t : List Ev) :
    sleeps_between_requests (Ev.sleep s :: t) = sleeps_between_requests t := by
  cases t with
  | nil => rfl
  | cons e rest => simp [sleeps_between_requests, isReq]

theorem sbr_req_sleep_cons (c : String) (s : ℚ) (t : List Ev) :
    sleeps_between_requests (Ev.req c :: Ev.sleep s :: t) =
      sleeps_between_requests (Ev.sleep s :: t) := by
  simp [sleeps_between_requests, isReq]

/-- C5 counterexample: the fixed sleep does not separate requests on every
path — when a query fails (request error) or the API reports an error, the
loops `continue` without sleeping, so two consecutive requests occur with no
sleep between them. -/
theorem sleep_missing_on_error_paths :
    sleeps_between_requests (trace_cs qFailW
      ["00000000000000", "00000000000001"]) = false
    ∧ sleeps_between_requests (trace_ot qApiErrorW
      ["00000000000000", "00000000000001"]) = false := by
  constructor
  · rfl
  · rfl

/-- C5 amended: execution is sequential, and a sleep of the configured SLEEP
duration occurs between consecutive requests whenever the earlier query was
processed to completion (non-JSON response or `code` 200 in
`consulta_simples.py`; response present and not an API error in
`consulta.py`); on the request-failure and API-error paths the next request
follows with no intervening sleep (`sleep_missing_on_error_paths`). -/
theorem sleep_between_processed_requests
    (q qo : String → Option Nat × Option Jdict) (cnpjs : List String) :
    ((∀ c ∈ cnpjs, sleepy_cs (q c) = true) →
      sleeps_between_requests (trace_cs q cnpjs) = true)
    ∧ ((∀ c ∈ cnpjs, sleepy_ot (qo c) = true) →
      sleeps_between_requests (trace_ot qo cnpjs) = true)
    ∧ (∀ c : String, (q c).1 = none → trace_block_cs q c = [Ev.req c]) := by
  refine ⟨?_, ?_, ?_⟩
  · induction cnpjs with
    | nil => intro _; rfl
    | cons c t ih =>
      intro hall
      have hc := hall c (List.mem_cons_self _ _)
      rw [trace_cs, List.flatMap_cons, trace_block_cs_of_sleepy hc]
      show sleeps_between_requests
        (Ev.req c :: Ev.sleep SLEEP_cs :: (t.flatMap (trace_block_cs q))) = true
      rw [sbr_req_sleep_cons, sbr_sleep_cons]
      exact ih fun d hd => hall d (List.mem_cons_of_mem _ hd)
  · induction cnpjs with
    | nil => intro _; rfl
    | cons c t ih =>
      intro hall
      have hc := hall c (List.mem_cons_self _ _)
      rw [trace_ot, List.flatMap_cons, trace_block_ot_of_sleepy hc]
      show sleeps_between_requests
        (Ev.req c :: Ev.sleep SLEEP_ot :: (t.flatMap (trace_block_ot qo))) = true
      rw [sbr_req_sleep_cons, sbr_sleep_cons]
      exact ih fun d hd => hall d (List.mem_cons_of_mem _ hd)
  · intro c hc
    rcases hq : q c with ⟨st?, j?⟩
    rw [hq] at hc
    cases st? with
    | none => simp [trace_block_cs, hq]
    | some st => simp at hc

/-- Concrete all-success oracles used only by the C5 witness. -/
def qOkCsW : String → Option Nat × Option Jdict :=
  fun _ => (some 200, some [("code", Json.num 200)])

def qOkOtW : String → Option Nat × Option Jdict :=
  fun _ => (some 200, some [])

/-- Witness for the amended C5 at concrete inputs: on all-success runs every
pair of consecutive requests is separated by a sleep, and a failed request's
iteration emits no sleep. -/
theorem sleep_between_processed_requests_witness :
    sleeps_between_requests (trace_cs qOkCsW
      ["00000000000000", "00000000000001"]) = true
    ∧ sleeps_between_requests (trace_ot qOkOtW
      ["00000000000000", "00000000000001"]) = true
    ∧ trace_block_cs qFailW "00000000000000" = [Ev.req "00000000000000"] := by
  refine ⟨?_, ?_, ?_⟩
  · exact (sleep_between_processed_requests qOkCsW qOkOtW
      ["00000000000000", "00000000000001"]).1 (by decide)
  · exact (sleep_between_processed_requests qOkCsW qOkOtW
      ["00000000000000", "00000000000001"]).2.1 (by decide)
  · exact (sleep_between_processed_requests qFailW qOkOtW []).2.2
      "00000000000000" rfl

/-- What C6 requires of the row at position `i` of a CNPJ's block: it
carries the identifier, the year, a regime label and a reason string. -/
def RowFacts (c : String) (y : Nat) (r : Row) : Prop :=
  r.lookup "CNPJ" = some (.str c) ∧
  r.lookup "Ano" = some (.num (y : Int)) ∧
  (r.lookup "CNPJ+ANO").isSome = true ∧
  (r.lookup "Regime").isSome = true ∧
  (r.lookup "Motivo").isSome = true

theorem block_cs_shape (parse : Json → Option Date)
    (q : String → Option Nat × Option Jdict) (c : String) :
    ∃ g : Nat → Row, block_cs parse q c = YEARS.map g ∧
      ∀ y : Nat, RowFacts c y (g y) := by
  rcases hq : q c with ⟨st?, j?⟩
  cases st? with
  | none =>
    refine ⟨fun y => rowErroCS c y "ERRO_REQUISICAO" "erro_requisicao",
      by simp [block_cs, hq], fun y => ⟨rfl, rfl, rfl, rfl, rfl⟩⟩
  | some st =>
    cases j? with
    | none =>
      refine ⟨fun y => rowErroCS c y "ERRO_RESP_NAO_JSON" "resp_nao_json",
        by simp [block_cs, hq], fun y => ⟨rfl, rfl, rfl, rfl, rfl⟩⟩
    | some fields =>
      by_cases hcode : isCode200 (lookupJ fields "code") = true
      · have hb : block_cs parse q c = rowsSuccessCS parse fields c := by
          simp [block_cs, hq, hcode]
        refine ⟨fun y =>
          [("CNPJ+ANO", .str (c ++ toString y)), ("CNPJ", .str c),
           ("Ano", .num (y : Int)),
           ("Regime", .str
             (if (covers_year_strict
               (extract_periods_from_response parse (Json.obj fields)) y).1 then
               "Simples Nacional" else "Outro Regime")),
           ("", .str ""),
           ("Motivo", .str (covers_year_strict
             (extract_periods_from_response parse (Json.obj fields)) y).2)],
          by rw [hb]; rfl, fun y => ⟨rfl, rfl, rfl, rfl, rfl⟩⟩
      · refine ⟨fun y =>
          [("CNPJ+ANO", .str (c ++ "/" ++ toString y)), ("CNPJ", .str c),
           ("Ano", .num (y : Int)),
           ("Regime", .str ("API_CODE_" ++ pyStrOpt (lookupJ fields "code"))),
           ("Motivo", (lookupJ fields "code_message").getD (.str "sem mensagem"))],
          by simp only [block_cs, hq, if_neg hcode], fun y => ⟨rfl, rfl, rfl, rfl, rfl⟩⟩

theorem block_bapi_run_shape {parse : Json → Option Date}
    {oracle : String → HttpResult} {c : String} {B : List Row}
    (h : block_bapi_run parse oracle c = some B) :
    ∃ g : Nat → Row, B = YEARS.map g ∧ ∀ y : Nat, RowFacts c y (g y) := by
  by_cases herr : (match (consultar_cnpj (oracle c)).2 with
                   | some m => m != ""
                   | none => false) = true
  · simp only [block_bapi_run, if_pos herr, Option.some.injEq] at h
    exact ⟨_, h.symm, fun y => ⟨rfl, rfl, rfl, rfl, rfl⟩⟩
  · simp only [block_bapi_run, if_neg herr] at h
    cases hex : extract_simples_years parse
        ((consultar_cnpj (oracle c)).1.getD Json.null) with
    | none => rw [hex] at h; simp at h
    | some r =>
      rw [hex] at h
      simp only [Option.some.injEq] at h
      refine ⟨_, h.symm, ?_⟩
      intro y
      by_cases hcon : r.1.contains y = true
      · simp only [if_pos hcon]
        exact ⟨rfl, rfl, rfl, rfl, rfl⟩
      · simp only [if_neg hcon]
        exact ⟨rfl, rfl, rfl, rfl, rfl⟩

theorem block_cs_run_eq {parse : Json → Option Date}
    {q : String → Option Nat × Option Jdict} {c : String} {B : List Row}
    (h : block_cs_run parse q c = some B) : B = block_cs parse q c := by
  rcases hq : q c with ⟨st?, j?⟩
  cases st? with
  | none =>
    simp only [block_cs_run, hq, Option.some.injEq] at h
    exact h.symm
  | some st =>
    cases j? with
    | none =>
      simp only [block_cs_run, hq, Option.some.injEq] at h
      exact h.symm
    | some fields =>
      by_cases hcrash :
          (isCode200 (lookupJ fields "code") && dataItemRaisesCS fields) = true
      · simp [block_cs_run, hq, hcrash] at h
      · simp only [block_cs_run, hq, if_neg hcrash, Option.some.injEq] at h
        exact h.symm

theorem block_getD_facts {c : String} {B : List Row}
    (h : ∃ g : Nat → Row, B = YEARS.map g ∧ ∀ y : Nat, RowFacts c y (g y)) :
    B.length = 6 ∧ ∀ i, i < 6 → RowFacts c (2020 + i) (B.getD i []) := by
  obtain ⟨g, hg, hf⟩ := h
  subst hg
  refine ⟨by simp [YEARS], ?_⟩
  intro i hi
  interval_cases i
  · exact hf 2020
  · exact hf 2021
  · exact hf 2022
  · exact hf 2023
  · exact hf 2024
  · exact hf 2025

theorem runBlocks_length {α : Type} {blockRun : α → Option (List Row)}
    (hlen : ∀ a B, blockRun a = some B → B.length = 6) :
    ∀ (l : List α) (rows : List Row),
      runBlocks blockRun l = some rows → rows.length = 6 * l.length := by
  intro l
  induction l with
  | nil =>
    intro rows h
    simp only [runBlocks, Option.some.injEq] at h
    simp [← h]
  | cons c t ih =>
    intro rows h
    simp only [runBlocks] at h
    cases hB : blockRun c with
    | none => rw [hB] at h; simp at h
    | some B =>
      rw [hB] at h
      cases hr : runBlocks blockRun t with
      | none => rw [hr] at h; simp at h
      | some rs =>
        rw [hr] at h
        simp only [Option.map_some', Option.some.injEq] at h
        rw [← h, List.length_append, hlen c B hB, ih rs hr, List.length_cons,
          Nat.mul_succ]
        omega

/-- A concrete oracle whose 200-response crashes `consulta_simples.py` at
line 218: `"data"` is a nonempty list whose first element, a string, is
truthy and not a dict. -/
def qCrashW : String → Option Nat × Option Jdict :=
  fun _ => (some 200, some [("code", Json.num 200),
    ("data", Json.arr [Json.str "ativa"])])

/-- A concrete oracle whose 200-body is a bare JSON string, so
`extract_simples_years` crashes the BrasilAPI script on `j.get`. -/
def oracleCrashW : String → HttpResult :=
  fun _ => HttpResult.resp 200 (.ok (Json.str "html"))

/-- C6 counterexample: the batch transformation is not total over its input —
a 200-response whose `data` list starts with a truthy non-dict makes
`consulta_simples.py` raise `AttributeError` at line 218, and a non-dict
200-body makes the BrasilAPI `extract_simples_years` raise, so the run aborts
and no row list (no spreadsheet) is produced at all, rather than the claimed
`n × 6` rows. -/
theorem batch_total_crash_counterexample :
    mainRows_cs_run parseW qCrashW ["00000000000000"] = none
    ∧ processar_run parseW oracleCrashW ["00000000000000"] = none := by
  exact ⟨rfl, rfl⟩

/-- C6 amended: the batch transformation is single-pass, and whenever every
iteration completes (no response drives the script into an uncaught
exception — `batch_total_crash_counterexample` shows it is not total
otherwise), the produced output has exactly one flat row per (CNPJ, year)
pair: `n × 6` rows in input order for `n` non-blank input lines, whether each
query succeeded or failed, the `i`-th row of a CNPJ's block carrying that
CNPJ, the year `2020 + i`, a regime label and a reason; in
`consulta_simples.py` the abort happens exactly on the code-200 path whose
`data_item` is truthy and not a dict. -/
theorem batch_single_pass_total_completed (parse parse2 : Json → Option Date)
    (q : String → Option Nat × Option Jdict) (oracle : String → HttpResult)
    (lines linesB : List String) :
    (∀ rows : List Row, mainRows_cs_run parse q (read_cnpjs lines) = some rows →
      rows.length = 6 * (lines.filter fun l => (pyStrip l) != "").length)
    ∧ (∀ rows : List Row, processar_run parse2 oracle (read_cnpjs_bapi linesB) = some rows →
      rows.length = 6 * (linesB.filter fun l => (pyStrip l) != "").length)
    ∧ (∀ (c : String) (B : List Row), block_cs_run parse q c = some B →
        B.length = 6 ∧ ∀ i, i < 6 → RowFacts c (2020 + i) (B.getD i []))
    ∧ (∀ (c : String) (B : List Row), block_bapi_run parse2 oracle c = some B →
        B.length = 6 ∧ ∀ i, i < 6 → RowFacts c (2020 + i) (B.getD i []))
    ∧ (∀ (c : String) (st : Nat) (fields : Jdict), q c = (some st, some fields) →
        isCode200 (lookupJ fields "code") = true → dataItemRaisesCS fields = true →
        block_cs_run parse q c = none) := by
  have hlenCS : ∀ (a : String) (B : List Row),
      block_cs_run parse q a = some B → B.length = 6 := by
    intro a B hB
    rw [block_cs_run_eq hB]
    exact (block_getD_facts (block_cs_shape parse q a)).1
  have hlenBA : ∀ (a : String) (B : List Row),
      block_bapi_run parse2 oracle a = some B → B.length = 6 := by
    intro a B hB
    exact (block_getD_facts (block_bapi_run_shape hB)).1
  refine ⟨?_, ?_, ?_, ?_, ?_⟩
  · intro rows h
    rw [runBlocks_length hlenCS _ rows h]
    simp [read_cnpjs]
  · intro rows h
    rw [runBlocks_length hlenBA _ rows h]
    simp [read_cnpjs_bapi]
  · intro c B hB
    rw [block_cs_run_eq hB]
    exact block_getD_facts (block_cs_shape parse q c)
  · intro c B hB
    exact block_getD_facts (block_bapi_run_shape hB)
  · intro c st fields hq h200 hcrash
    simp only [block_cs_run, hq]
    rw [if_pos (by rw [h200, hcrash]; rfl)]

/-- A concrete failing HTTP oracle used only by witnesses. -/
def oracleFailW : String → HttpResult := fun _ => HttpResult.exn "down"

/-- Witness for the amended C6 at concrete inputs: one non-blank line yields
six rows in both scripts, the first and second rows of a block carry the CNPJ
and 2020/2021, and the crash clause fires on the concrete crashing oracle. -/
theorem batch_single_pass_total_completed_witness :
    (mainRows_cs parseW qFailW (read_cnpjs ["11.222.333/0001-44", " "])).length = 6
    ∧ ((processar_run parseW oracleFailW (read_cnpjs_bapi ["123", ""])).getD []).length = 6
    ∧ RowFacts "00000000000000" 2020 ((block_cs parseW qFailW "00000000000000").getD 0 [])
    ∧ RowFacts "123" 2021
        (((block_bapi_run parseW oracleFailW "123").getD []).getD 1 [])
    ∧ block_cs_run parseW qCrashW "00000000000000" = none := by
  refine ⟨?_, ?_, ?_, ?_, ?_⟩
  · exact ((batch_single_pass_total_completed parseW parseW qFailW oracleFailW
      ["11.222.333/0001-44", " "] []).1 _ rfl).trans (by decide)
  · exact ((batch_single_pass_total_completed parseW parseW qFailW oracleFailW
      [] ["123", ""]).2.1 _ rfl).trans (by decide)
  · exact ((batch_single_pass_total_completed parseW parseW qFailW oracleFailW
      [] []).2.2.1 "00000000000000" _ rfl).2 0 (by decide)
  · exact ((batch_single_pass_total_completed parseW parseW qFailW oracleFailW
      [] []).2.2.2.1 "123" _ rfl).2 1 (by decide)
  · exact (batch_single_pass_total_completed parseW parseW qCrashW oracleFailW
      [] []).2.2.2.2 "00000000000000" 200
      [("code", Json.num 200), ("data", Json.arr [Json.str "ativa"])] rfl rfl rfl
